import Mathlib

/-!
Verification of the scenario execution engine of the click-tester-webui
repository (React/TypeScript).  The development shallowly embeds the
engine's pure core — the template resolver, the MD5 signature generator,
the request context builder, the outcome classifier, the HTTP audit trail
and the sequential run loop of `runQueue` — as executable Lean functions,
and proves the specification's claims about them.

Modelling conventions:
* JS objects are association lists (`List (String × α)`); key update
  (`obj[k] = v`) is `aset`, lookup (`obj[k]`, `undefined` ↦ `none`) is `aget`.
* JSON values are the inductive `JVal` (null, boolean, integer number,
  string, object).  Non-integer numbers and arrays are outside the model.
* Nondeterministic browser inputs (Math.random, Date, fetch results,
  JSON.parse of a response body, reads of the cancellation ref) are
  supplied by explicit environment records.
* 32-bit JS arithmetic is `Nat` arithmetic with explicit reduction
  modulo `2 ^ 32`.
-/

set_option maxRecDepth 1000000

namespace ClickTester

/-- First-match lookup in an association list (JS property read;
`none` plays the role of `undefined`). -/
def aget {α : Type} (m : List (String × α)) (k : String) : Option α :=
  match m with
  | [] => none
  | (k2, v) :: rest => if k2 = k then some v else aget rest k

/-- Remove every binding of key `k`. -/
def aremove {α : Type} (m : List (String × α)) (k : String) :
    List (String × α) :=
  match m with
  | [] => []
  | (k2, v) :: rest =>
    if k2 = k then aremove rest k else (k2, v) :: aremove rest k

/-- Property write `obj[k] = v`: replaces the binding of `k` (JS objects
have at most one binding per key). -/
def aset {α : Type} (m : List (String × α)) (k : String) (v : α) :
    List (String × α) :=
  (k, v) :: aremove m k

@[simp] theorem aget_nil {α : Type} (k : String) :
    aget ([] : List (String × α)) k = none := rfl

theorem aget_cons {α : Type} (k2 : String) (v : α) (rest : List (String × α))
    (k : String) :
    aget ((k2, v) :: rest) k = if k2 = k then some v else aget rest k := rfl

theorem aget_aremove_ne {α : Type} (m : List (String × α)) (k k2 : String)
    (h : k2 ≠ k) : aget (aremove m k2) k = aget m k := by
  induction m with
  | nil => simp [aremove]
  | cons p rest ih =>
    obtain ⟨a, b⟩ := p
    simp only [aremove]
    by_cases ha : a = k2
    · subst ha
      rw [if_pos rfl, ih, aget_cons, if_neg h]
    · rw [if_neg ha, aget_cons, aget_cons, ih]

@[simp] theorem aget_aset_same {α : Type} (m : List (String × α))
    (k : String) (v : α) : aget (aset m k v) k = some v := by
  simp [aset, aget_cons]

theorem aget_aset_ne {α : Type} (m : List (String × α)) (k k2 : String)
    (v : α) (h : k ≠ k2) : aget (aset m k v) k2 = aget m k2 := by
  rw [aset, aget_cons, if_neg h]
  exact aget_aremove_ne m k2 k h

/-- JSON-like runtime values (`ApiResponse` bodies, reference-table data).
Numbers are restricted to integers; arrays are outside the model. -/
inductive JVal : Type where
  | jnull : JVal
  | jbool : Bool → JVal
  | jnum : Int → JVal
  | jstr : String → JVal
  | jobj : List (String × JVal) → JVal

/-- A parsed JSON object body (`ApiResponse`). -/
abbrev JObj := List (String × JVal)

/-- JS truthiness of a `JVal`. -/
def jsTruthy : JVal → Bool
  | .jnull => false
  | .jbool b => b
  | .jnum n => n ≠ 0
  | .jstr s => s ≠ ""
  | .jobj _ => true

/-- `String(v)` on a `JVal`. -/
def jvalToString : JVal → String
  | .jnull => "null"
  | .jbool b => if b then "true" else "false"
  | .jnum n => toString n
  | .jstr s => s
  | .jobj _ => "[object Object]"

/-- `String(x)` where `x` may be `undefined` (template-literal semantics). -/
def jsDisplay : Option JVal → String
  | none => "undefined"
  | some v => jvalToString v

/-- A scalar value of a scenario `post` field (`string | number`). -/
inductive PostVal : Type where
  | str : String → PostVal
  | num : Int → PostVal
  deriving DecidableEq

/-- `String(v)` on a post-field scalar. -/
def postValToString : PostVal → String
  | .str s => s
  | .num n => toString n

/-- JS truthiness of a post-field scalar. -/
def postValTruthy : PostVal → Bool
  | .str s => s ≠ ""
  | .num n => n ≠ 0

/-- `v || b` on strings: keeps a non-empty string, otherwise the default. -/
def jsOr (a b : String) : String := if a = "" then b else a

/-- `x || b` where `x : string | undefined` (`undefined` and `""` both
fall through to the default). -/
def jsOrOpt (a : Option String) (b : String) : String :=
  match a with
  | none => b
  | some s => if s = "" then b else s

/-- JS `String.prototype.trim` on a character list (ASCII whitespace
model). -/
def jsTrimChars (l : List Char) : List Char :=
  ((l.dropWhile Char.isWhitespace).reverse.dropWhile Char.isWhitespace).reverse

/-- JS `String.prototype.trim`. -/
def jsTrim (s : String) : String := String.mk (jsTrimChars s.toList)

def splitOnDotAux : List Char → List Char → List (List Char)
  | [], acc => [acc.reverse]
  | c :: rest, acc =>
    if c = '.' then acc.reverse :: splitOnDotAux rest []
    else splitOnDotAux rest (c :: acc)

/-- JS `String.prototype.split('.')`. -/
def splitOnDot (s : String) : List String :=
  (splitOnDotAux s.toList []).map String.mk

/-- `getByPath` from App.tsx: walk `path` as nested field accesses; an
empty segment is skipped; indexing anything but an object (or indexing a
missing key) yields `undefined` (`none`). -/
def getByPath (data : Option JVal) (path : List String) : Option JVal :=
  path.foldl
    (fun acc segment =>
      if segment = "" then acc
      else
        match acc with
        | some (.jobj fields) => aget fields segment
        | _ => none)
    data

/-- `ScenarioReferenceEntry` from App.tsx: per correlation id, a snapshot
of post / resolved request / response data (each possibly absent). -/
structure ScenarioReferenceEntry : Type where
  post : Option JVal := none
  request : Option JVal := none
  response : Option JVal := none

instance : Inhabited ScenarioReferenceEntry := ⟨{}⟩

/-- The per-run reference table: correlation id ↦ reference entry. -/
abbrev RefTable := List (String × ScenarioReferenceEntry)

/-- The replacer callback of `resolveTemplateValue`: resolves one
placeholder expression body against the reference table.  Malformed
expressions, unknown scopes, unknown correlation ids and failed path
walks all yield the empty string. -/
def resolveExpression (references : RefTable) (rawExpression : String) :
    String :=
  let expression := jsTrim rawExpression
  let parts := splitOnDot expression
  if parts.length < 3 then ""
  else
    match parts with
    | scope :: second :: third :: rest =>
      let info : Option (String × String × List String) :=
        if scope = "scenario" then some (second, third, rest)
        else if scope = "response" ∨ scope = "request" ∨ scope = "post" then
          some (second, scope, third :: rest)
        else none
      match info with
      | none => ""
      | some (clickTransId, source, path) =>
        match aget references clickTransId with
        | none => ""
        | some entry =>
          let sourceData : Option JVal :=
            if source = "response" then entry.response
            else if source = "request" then entry.request
            else if source = "post" then entry.post
            else none
          match getByPath sourceData path with
          | none => ""
          | some .jnull => ""
          | some v => jvalToString v
    | _ => ""

/-- Character-level scanner implementing the regex
`/\{\{\s*([^}]+)\s*\}\}/g` of `resolveTemplateValue`: at `{{`, the maximal
non-`}` run must be non-empty and followed by `}}`; the captured body is
handed to `resolveExpression` and scanning resumes after the match
(replacements are not re-scanned).  On a failed match the scan advances
one character, exactly like the JS regex engine. -/
def resolveCharsFuel (references : RefTable) : Nat → List Char → List Char
  | _, [] => []
  | 0, l => l
  | fuel + 1, '{' :: '{' :: cs2 =>
    match cs2.takeWhile (fun c => c ≠ '}'),
          cs2.dropWhile (fun c => c ≠ '}') with
    | b :: bs, '}' :: '}' :: tail =>
      (resolveExpression references (String.mk (b :: bs))).toList ++
        resolveCharsFuel references fuel tail
    | _, _ => '{' :: resolveCharsFuel references fuel ('{' :: cs2)
  | fuel + 1, c :: cs => c :: resolveCharsFuel references fuel cs

/-- The scanner entry point: every recursive step of `resolveCharsFuel`
consumes at least one character and one unit of fuel, so fuel equal to
the length of the input is never exhausted. -/
def resolveChars (references : RefTable) (l : List Char) : List Char :=
  resolveCharsFuel references l.length l

/-- `resolveTemplateValue` from App.tsx: rewrite every `{{...}}`
placeholder in the string. -/
def resolveTemplateValue (references : RefTable) (rawValue : String) :
    String :=
  String.mk (resolveChars references rawValue.toList)

def hasTemplateMatchFuel : Nat → List Char → Bool
  | _, [] => false
  | 0, _ => false
  | fuel + 1, '{' :: '{' :: cs2 =>
    match cs2.takeWhile (fun c => c ≠ '}'),
          cs2.dropWhile (fun c => c ≠ '}') with
    | _ :: _, '}' :: '}' :: _ => true
    | _, _ => hasTemplateMatchFuel fuel ('{' :: cs2)
  | fuel + 1, _ :: cs => hasTemplateMatchFuel fuel cs

/-- Whether the scanner of `resolveTemplateValue` finds at least one
placeholder match in the character list. -/
def hasTemplateMatch (l : List Char) : Bool :=
  hasTemplateMatchFuel l.length l

/-! ## MD5 (lib/md5.ts)

Translation of the repository's MD5 implementation.  JS 32-bit integer
arithmetic (`addUnsigned`, `rotateLeft`, the bit mixers) is modelled on
`Nat` with explicit reduction modulo `2 ^ 32`; `addUnsigned` in the
source is a float-safe implementation of 32-bit wraparound addition. -/

/-- 32-bit wraparound addition (`addUnsigned` in md5.ts). -/
def addUnsigned (x y : Nat) : Nat := (x + y) % 4294967296

/-- 32-bit left-rotation (`rotateLeft` in md5.ts). -/
def rotateLeft (value shift : Nat) : Nat :=
  ((value <<< shift) % 4294967296) ||| ((value % 4294967296) >>> (32 - shift))

/-- Bitwise complement within 32 bits (JS `~` on a 32-bit word). -/
def not32 (b : Nat) : Nat := b ^^^ 4294967295

/-- Round function F (`ff` in md5.ts). -/
def md5ff (aa bb cc dd xValue s ac : Nat) : Nat :=
  addUnsigned
    (rotateLeft
      (addUnsigned aa (addUnsigned (addUnsigned ((bb &&& cc) ||| (not32 bb &&& dd)) xValue) ac))
      s)
    bb

/-- Round function G (`gg` in md5.ts). -/
def md5gg (aa bb cc dd xValue s ac : Nat) : Nat :=
  addUnsigned
    (rotateLeft
      (addUnsigned aa (addUnsigned (addUnsigned ((bb &&& dd) ||| (cc &&& not32 dd)) xValue) ac))
      s)
    bb

/-- Round function H (`hh` in md5.ts). -/
def md5hh (aa bb cc dd xValue s ac : Nat) : Nat :=
  addUnsigned
    (rotateLeft (addUnsigned aa (addUnsigned (addUnsigned (bb ^^^ cc ^^^ dd) xValue) ac)) s)
    bb

/-- Round function I (`ii` in md5.ts). -/
def md5ii (aa bb cc dd xValue s ac : Nat) : Nat :=
  addUnsigned
    (rotateLeft
      (addUnsigned aa (addUnsigned (addUnsigned (cc ^^^ (bb ||| not32 dd)) xValue) ac))
      s)
    bb

/-- `convertToWordArray` from md5.ts: pack the UTF-8 bytes little-endian
into 32-bit words, append the `0x80` padding bit and the 64-bit bit
length, producing a multiple of 16 words. -/
def convertToWordArray (bytes : List Nat) : List Nat :=
  let len := bytes.length
  let numberOfWords := ((len + 8) / 64 + 1) * 16
  (List.range numberOfWords).map (fun i =>
    if i = numberOfWords - 2 then (len * 8) % 4294967296
    else if i = numberOfWords - 1 then len / 536870912
    else
      let base :=
        (List.range 4).foldl
          (fun acc j => acc ||| ((bytes.getD (4 * i + j) 0) <<< (8 * j))) 0
      if i = len / 4 then base ||| (128 <<< ((len % 4) * 8)) else base)

/-- One 64-step MD5 block transformation over the 16 words `x`
(the body of the main loop in md5.ts, followed by the chaining adds). -/
def md5Block (x : Nat → Nat) (abcd : Nat × Nat × Nat × Nat) :
    Nat × Nat × Nat × Nat :=
  let (a0, b0, c0, d0) := abcd
  let a := a0
  let b := b0
  let c := c0
  let d := d0
  let a := md5ff a b c d (x 0) 7 0xd76aa478
  let d := md5ff d a b c (x 1) 12 0xe8c7b756
  let c := md5ff c d a b (x 2) 17 0x242070db
  let b := md5ff b c d a (x 3) 22 0xc1bdceee
  let a := md5ff a b c d (x 4) 7 0xf57c0faf
  let d := md5ff d a b c (x 5) 12 0x4787c62a
  let c := md5ff c d a b (x 6) 17 0xa8304613
  let b := md5ff b c d a (x 7) 22 0xfd469501
  let a := md5ff a b c d (x 8) 7 0x698098d8
  let d := md5ff d a b c (x 9) 12 0x8b44f7af
  let c := md5ff c d a b (x 10) 17 0xffff5bb1
  let b := md5ff b c d a (x 11) 22 0x895cd7be
  let a := md5ff a b c d (x 12) 7 0x6b901122
  let d := md5ff d a b c (x 13) 12 0xfd987193
  let c := md5ff c d a b (x 14) 17 0xa679438e
  let b := md5ff b c d a (x 15) 22 0x49b40821
  let a := md5gg a b c d (x 1) 5 0xf61e2562
  let d := md5gg d a b c (x 6) 9 0xc040b340
  let c := md5gg c d a b (x 11) 14 0x265e5a51
  let b := md5gg b c d a (x 0) 20 0xe9b6c7aa
  let a := md5gg a b c d (x 5) 5 0xd62f105d
  let d := md5gg d a b c (x 10) 9 0x02441453
  let c := md5gg c d a b (x 15) 14 0xd8a1e681
  let b := md5gg b c d a (x 4) 20 0xe7d3fbc8
  let a := md5gg a b c d (x 9) 5 0x21e1cde6
  let d := md5gg d a b c (x 14) 9 0xc33707d6
  let c := md5gg c d a b (x 3) 14 0xf4d50d87
  let b := md5gg b c d a (x 8) 20 0x455a14ed
  let a := md5gg a b c d (x 13) 5 0xa9e3e905
  let d := md5gg d a b c (x 2) 9 0xfcefa3f8
  let c := md5gg c d a b (x 7) 14 0x676f02d9
  let b := md5gg b c d a (x 12) 20 0x8d2a4c8a
  let a := md5hh a b c d (x 5) 4 0xfffa3942
  let d := md5hh d a b c (x 8) 11 0x8771f681
  let c := md5hh c d a b (x 11) 16 0x6d9d6122
  let b := md5hh b c d a (x 14) 23 0xfde5380c
  let a := md5hh a b c d (x 1) 4 0xa4beea44
  let d := md5hh d a b c (x 4) 11 0x4bdecfa9
  let c := md5hh c d a b (x 7) 16 0xf6bb4b60
  let b := md5hh b c d a (x 10) 23 0xbebfbc70
  let a := md5hh a b c d (x 13) 4 0x289b7ec6
  let d := md5hh d a b c (x 0) 11 0xeaa127fa
  let c := md5hh c d a b (x 3) 16 0xd4ef3085
  let b := md5hh b c d a (x 6) 23 0x04881d05
  let a := md5hh a b c d (x 9) 4 0xd9d4d039
  let d := md5hh d a b c (x 12) 11 0xe6db99e5
  let c := md5hh c d a b (x 15) 16 0x1fa27cf8
  let b := md5hh b c d a (x 2) 23 0xc4ac5665
  let a := md5ii a b c d (x 0) 6 0xf4292244
  let d := md5ii d a b c (x 7) 10 0x432aff97
  let c := md5ii c d a b (x 14) 15 0xab9423a7
  let b := md5ii b c d a (x 5) 21 0xfc93a039
  let a := md5ii a b c d (x 12) 6 0x655b59c3
  let d := md5ii d a b c (x 3) 10 0x8f0ccc92
  let c := md5ii c d a b (x 10) 15 0xffeff47d
  let b := md5ii b c d a (x 1) 21 0x85845dd1
  let a := md5ii a b c d (x 8) 6 0x6fa87e4f
  let d := md5ii d a b c (x 15) 10 0xfe2ce6e0
  let c := md5ii c d a b (x 6) 15 0xa3014314
  let b := md5ii b c d a (x 13) 21 0x4e0811a1
  let a := md5ii a b c d (x 4) 6 0xf7537e82
  let d := md5ii d a b c (x 11) 10 0xbd3af235
  let c := md5ii c d a b (x 2) 15 0x2ad7d2bb
  let b := md5ii b c d a (x 9) 21 0xeb86d391
  (addUnsigned a a0, addUnsigned b b0, addUnsigned c c0, addUnsigned d d0)

/-- Process the word array in 16-word blocks (`for k ... k += 16`). -/
def md5BlocksFuel (fuel : Nat) (words : List Nat)
    (abcd : Nat × Nat × Nat × Nat) : Nat × Nat × Nat × Nat :=
  match fuel, words with
  | _, [] => abcd
  | 0, _ => abcd
  | fuel + 1, w :: ws =>
    md5BlocksFuel fuel ((w :: ws).drop 16)
      (md5Block (fun i => (w :: ws).getD i 0) abcd)

/-- The word array always has a positive multiple of 16 words, so
`(words.length + 15) / 16` blocks are processed, as in the JS loop. -/
def md5Blocks (words : List Nat) (abcd : Nat × Nat × Nat × Nat) :
    Nat × Nat × Nat × Nat :=
  md5BlocksFuel ((words.length + 15) / 16) words abcd

/-- One lowercase hex digit. -/
def hexDigit (n : Nat) : Char :=
  "0123456789abcdef".toList.getD n '0'

/-- `wordToHex` from md5.ts: the four bytes of a word, little-endian,
each as two lowercase hex digits. -/
def wordToHex (value : Nat) : String :=
  String.mk
    ((List.range 4).foldl
      (fun acc count =>
        let byte := (value >>> (count * 8)) &&& 255
        acc ++ [hexDigit (byte / 16), hexDigit (byte % 16)])
      [])

/-- UTF-8 encoding of one character as byte values. -/
def utf8EncodeCharNat (c : Char) : List Nat :=
  let n := c.toNat
  if n < 0x80 then [n]
  else if n < 0x800 then [0xC0 ||| (n >>> 6), 0x80 ||| (n &&& 0x3F)]
  else if n < 0x10000 then
    [0xE0 ||| (n >>> 12), 0x80 ||| ((n >>> 6) &&& 0x3F), 0x80 ||| (n &&& 0x3F)]
  else
    [0xF0 ||| (n >>> 18), 0x80 ||| ((n >>> 12) &&& 0x3F),
      0x80 ||| ((n >>> 6) &&& 0x3F), 0x80 ||| (n &&& 0x3F)]

/-- UTF-8 encoding of a string as byte values (the effect of
`unescape(encodeURIComponent(str))` in md5.ts: one byte per resulting
character). -/
def utf8Bytes (s : String) : List Nat :=
  s.toList.foldr (fun c acc => utf8EncodeCharNat c ++ acc) []

/-- `md5` from md5.ts: lowercase 32-character hex MD5 digest of the
string's UTF-8 encoding. -/
def md5 (message : String) : String :=
  let bytes := utf8Bytes message
  let x := convertToWordArray bytes
  let (a, b, c, d) :=
    md5Blocks x (0x67452301, 0xefcdab89, 0x98badcfe, 0x10325476)
  wordToHex a ++ wordToHex b ++ wordToHex c ++ wordToHex d

/-! ## Data model (lib/types.ts) and request context builder (App.tsx) -/

/-- The two protocol actions. -/
inductive ScenarioAction : Type where
  | prepare : ScenarioAction
  | complete : ScenarioAction
  deriving DecidableEq

/-- Scenario status state machine. -/
inductive ScenarioStatus : Type where
  | idle : ScenarioStatus
  | queued : ScenarioStatus
  | running : ScenarioStatus
  | success : ScenarioStatus
  | error : ScenarioStatus
  deriving DecidableEq

/-- `TesterSettings` from lib/types.ts (plus the `amount` override used
by App.tsx). -/
structure TesterSettings : Type where
  prepareUrl : String := ""
  completeUrl : String := ""
  serviceId : String := ""
  secretKey : String := ""
  merchantTransId : String := ""
  amount : String := ""
  merchantUserId : String := ""
  clickPaydocId : String := ""
  presetMerchantPrepareId : String := ""

/-- `TestScenario` from lib/types.ts: a scenario definition together with
the engine's working result fields.  `post` is the JS object of literal
request fields (a binding to `none` is a present-but-`undefined` field);
timestamps are abstract clock ticks. -/
structure TestScenario : Type where
  idx : Nat
  description : String := ""
  action : ScenarioAction
  sending_error_code : Int := 0
  expected_error_code : Int := 0
  post : List (String × Option PostVal) := []
  status : ScenarioStatus := .idle
  requestPayload : Option (List (String × String)) := none
  response : Option (Option JObj) := none
  rawResponse : Option String := none
  actualErrorCode : Option (Option JVal) := none
  errorMessage : Option String := none
  startedAt : Option Nat := none
  finishedAt : Option Nat := none
  durationMs : Option Int := none

/-- `randomTransactionId` from App.tsx, with the `Math.random()` draw
abstracted into a seed: `floor(random * (999_999_999_000 - 999_999_999 + 1)) + 999_999_999`. -/
def randomTransactionId (seed : Nat) : String :=
  toString (seed % 998999999002 + 999999999)

/-- Character class `[a-zA-Z]`. -/
def isAsciiAlpha (c : Char) : Bool :=
  ('a' ≤ c ∧ c ≤ 'z') ∨ ('A' ≤ c ∧ c ≤ 'Z')

/-- Character class `[a-zA-Z\d+\-.]`. -/
def isSchemeChar (c : Char) : Bool :=
  isAsciiAlpha c ∨ c.isDigit ∨ c = '+' ∨ c = '-' ∨ c = '.'

/-- Character class `[\w.-]`. -/
def isHostChar (c : Char) : Bool :=
  isAsciiAlpha c ∨ c.isDigit ∨ c = '_' ∨ c = '.' ∨ c = '-'

/-- The regex `/^[a-zA-Z][a-zA-Z\d+\-.]*:\/\//` of `normalizeEndpointUrl`. -/
def hasUriScheme (s : String) : Bool :=
  match s.toList with
  | [] => false
  | c :: rest =>
    isAsciiAlpha c && ((rest.dropWhile isSchemeChar).take 3) == [':', '/', '/']

/-- The regex `/^[\w.-]+:\d+(\/|$)/` of `normalizeEndpointUrl`. -/
def looksLikeHostPort (s : String) : Bool :=
  let l := s.toList
  let host := l.takeWhile isHostChar
  let rest := l.dropWhile isHostChar
  host != [] &&
    match rest with
    | ':' :: rest2 =>
      let digits := rest2.takeWhile Char.isDigit
      let rest3 := rest2.dropWhile Char.isDigit
      digits != [] && (rest3 == [] || rest3.head? == some '/')
    | _ => false

/-- `normalizeEndpointUrl` from App.tsx: trim; keep URLs that already have
a scheme; prefix `http://` to bare `host:port` values. -/
def normalizeEndpointUrl (rawUrl : String) : String :=
  let trimmed := jsTrim rawUrl
  if trimmed = "" then ""
  else if hasUriScheme trimmed then trimmed
  else if looksLikeHostPort trimmed then "http://" ++ trimmed
  else trimmed

/-- Step 1 of `buildRequestContext`: the payload after resolving every
present scenario `post` field through the template resolver
(`Object.entries(scenario.post).forEach`, skipping `undefined`/`null`
values). -/
def resolvedPostPayload (post : List (String × Option PostVal))
    (references : RefTable) : List (String × String) :=
  post.foldl
    (fun acc kv =>
      match kv.2 with
      | none => acc
      | some v => aset acc kv.1 (resolveTemplateValue references (postValToString v)))
    []

/-- Environment inputs of one `buildRequestContext` call: the
`Math.random()` seed and the current-time `sign_time` fallback
(`new Date().toISOString().replace('T', ' ').slice(0, 19)`). -/
structure BuildEnv : Type where
  seed : Nat := 0
  nowSignTime : String := ""

/-- The result record of `buildRequestContext`. -/
structure RequestContext : Type where
  url : String
  payload : List (String × String)
  merchantPrepareIdUsed : String

/-- `buildRequestContext` from App.tsx, translated statement by
statement.  All writes target the freshly created `payload` object; the
scenario, settings, chained ids and reference table are only read. -/
def buildRequestContext (scenario : TestScenario) (settings : TesterSettings)
    (previousMerchantPrepareId : String)
    (merchantPrepareIdByClickTransId : List (String × String))
    (scenarioReferences : RefTable) (env : BuildEnv) : RequestContext :=
  let isComplete := scenario.action = ScenarioAction.complete
  let payload0 := resolvedPostPayload scenario.post scenarioReferences
  let payload1 :=
    aset payload0 "service_id"
      (jsOr settings.serviceId (jsOrOpt (aget payload0 "service_id") ""))
  let clickTransId := jsTrim ((aget payload1 "click_trans_id").getD "")
  let merchantTransId :=
    if clickTransId = "77816" then randomTransactionId env.seed
    else jsOr settings.merchantTransId (jsOrOpt (aget payload1 "merchant_trans_id") "")
  let payload2 := aset payload1 "merchant_trans_id" merchantTransId
  let payload3 :=
    aset payload2 "amount"
      (jsOrOpt ((aget payload2 "amount").map jsTrim) (jsOr settings.amount ""))
  let explicitMerchantPrepareId := jsTrim ((aget payload3 "merchant_prepare_id").getD "")
  let merchantPrepareIdUsed :=
    if isComplete then
      if clickTransId = "26216" then randomTransactionId env.seed
      else
        jsOr explicitMerchantPrepareId
          (if clickTransId = "11994" then
            jsOrOpt (aget merchantPrepareIdByClickTransId "18409") previousMerchantPrepareId
          else previousMerchantPrepareId)
    else ""
  let payload4 :=
    if isComplete ∧ merchantPrepareIdUsed ≠ "" then
      aset payload3 "merchant_prepare_id" merchantPrepareIdUsed
    else payload3
  let payload5 := aset payload4 "error" (toString scenario.sending_error_code)
  let payload6 := aset payload5 "error_note" (jsOrOpt (aget payload5 "error_note") "Ok")
  let payload7 :=
    aset payload6 "click_paydoc_id"
      (jsOr settings.clickPaydocId (jsOrOpt (aget payload6 "click_paydoc_id") ""))
  let payload8 :=
    if settings.merchantUserId ≠ "" then
      aset payload7 "merchant_user_id" settings.merchantUserId
    else payload7
  let payload9 := if clickTransId = "73907" then aset payload8 "amount" "499" else payload8
  let payload10 :=
    aset payload9 "sign_time" (jsOrOpt (aget payload9 "sign_time") env.nowSignTime)
  let signString :=
    if clickTransId = "27147" ∨ clickTransId = "26021" then
      "10a250d95b1a6afedcda8360a12a1341"
    else
      md5
        (((aget payload10 "click_trans_id").getD "undefined") ++
          ((aget payload10 "service_id").getD "undefined") ++
          settings.secretKey ++
          ((aget payload10 "merchant_trans_id").getD "undefined") ++
          (if isComplete then merchantPrepareIdUsed else "") ++
          ((aget payload10 "amount").getD "undefined") ++
          ((aget payload10 "action").getD "undefined") ++
          ((aget payload10 "sign_time").getD "undefined"))
  let payload11 := aset payload10 "sign_string" signString
  { url :=
      normalizeEndpointUrl
        (if isComplete then settings.completeUrl else settings.prepareUrl),
    payload := payload11,
    merchantPrepareIdUsed := merchantPrepareIdUsed }

/-- Modelled subset of JS `Number(string)` conversion: optional sign and
decimal digits (JS also trims whitespace itself).  Non-integer numeric
literals, hex/exponent forms and `Infinity` are outside the model;
`none` stands for `NaN`. -/
def natOfDigits (ds : List Char) : Nat :=
  ds.foldl (fun n c => n * 10 + (c.toNat - 48)) 0

def jsNumber? (s : String) : Option Int :=
  let t := jsTrim s
  match t.toList with
  | [] => some 0
  | '-' :: ds => if ds ≠ [] ∧ ds.all Char.isDigit then
      some (-(Int.ofNat (natOfDigits ds))) else none
  | '+' :: ds => if ds ≠ [] ∧ ds.all Char.isDigit then
      some (Int.ofNat (natOfDigits ds)) else none
  | ds => if ds.all Char.isDigit then
      some (Int.ofNat (natOfDigits ds)) else none

/-- `normalizeErrorCode` from App.tsx: a finite number is returned as is;
a non-blank string is converted with `Number(...)` and returned unless
`NaN`; everything else is `null`. -/
def normalizeErrorCode (value : Option JVal) : Option Int :=
  match value with
  | some (.jnum n) => some n
  | some (.jstr s) => if jsTrim s ≠ "" then jsNumber? s else none
  | _ => none

/-! ## HTTP audit trail and dispatcher (App.tsx) -/

/-- `maxHttpAuditEntries` from App.tsx. -/
def maxHttpAuditEntries : Nat := 500

/-- `maxHttpAuditBodyLength` from App.tsx. -/
def maxHttpAuditBodyLength : Nat := 4000

inductive HttpAuditDirection : Type where
  | request : HttpAuditDirection
  | response : HttpAuditDirection
  | error : HttpAuditDirection
  deriving DecidableEq

/-- `HttpAuditEntry` from App.tsx (the `id` and `timestamp` fields, drawn
from the clock and `Math.random()` inside `appendHttpAuditEntry`, are
elided: no claim depends on them). -/
structure HttpAuditEntry : Type where
  requestId : String
  direction : HttpAuditDirection
  context : String
  method : String
  url : String
  status : Option Nat := none
  statusText : Option String := none
  ok : Option Bool := none
  payload : Option (List (String × String)) := none
  responseBody : Option String := none
  headers : Option (List (String × String)) := none
  errorMessage : Option String := none

/-- `appendHttpAuditEntry` from App.tsx: append to the stored list and
keep the most recent `maxHttpAuditEntries` entries
(`[...entries, next].slice(-maxHttpAuditEntries)`). -/
def appendHttpAuditEntry (entries : List HttpAuditEntry)
    (entry : HttpAuditEntry) : List HttpAuditEntry :=
  let next := entries ++ [entry]
  next.drop (next.length - maxHttpAuditEntries)

/-- `trimAuditBody` from App.tsx. -/
def trimAuditBody (body : String) : String :=
  if body = "" then ""
  else if body.length ≤ maxHttpAuditBodyLength then body
  else
    (body.take maxHttpAuditBodyLength) ++ "\n...[truncated " ++
      toString (body.length - maxHttpAuditBodyLength) ++ " chars]"

/-- Collapse whitespace runs to single spaces (`replace(/\s+/g, ' ')`);
the flag records whether the previous character was whitespace. -/
def collapseWs : Bool → List Char → List Char
  | _, [] => []
  | inRun, c :: rest =>
    if c.isWhitespace then
      if inRun then collapseWs true rest else ' ' :: collapseWs true rest
    else c :: collapseWs false rest

/-- `responsePreviewLimit` from App.tsx. -/
def responsePreviewLimit : Nat := 700

/-- `makeResponsePreview` from App.tsx. -/
def makeResponsePreview (raw : String) : String :=
  let normalized := String.mk (collapseWs false (jsTrim raw).toList)
  if normalized = "" then ""
  else if normalized.length ≤ responsePreviewLimit then normalized
  else (normalized.take responsePreviewLimit) ++ "..."

/-- `makeRawResponsePreview` from App.tsx. -/
def makeRawResponsePreview (raw : String) : String :=
  let normalized := jsTrim raw
  if normalized = "" then ""
  else if normalized.length > 300 then (normalized.take 300) ++ "..."
  else normalized

/-- `buildHttpStatusErrorMessage` from App.tsx. -/
def buildHttpStatusErrorMessage (url : String) (status : Nat)
    (statusText : String) (raw : String) (serverMessage : Option String) :
    String :=
  let statusLabel :=
    if statusText ≠ "" then toString status ++ " " ++ statusText
    else toString status
  let preview := makeResponsePreview raw
  let parts :=
    ["HTTP " ++ statusLabel ++ " при запросе " ++ url ++ "."] ++
      (match serverMessage with
       | some sm => if jsTrim sm ≠ "" then ["Сообщение сервера: " ++ jsTrim sm] else []
       | none => []) ++
      (if preview ≠ "" then ["Ответ (фрагмент): " ++ preview] else [])
  String.intercalate "\n" parts

/-- The outcome of the browser `fetch` of one dispatch, supplied by the
environment.  `bodyParsed` stands for `parseApiResponse(raw)`: the
`JSON.parse` result when it is a non-null object, otherwise `none`.
An `Except.error` value carries the message built by
`buildNetworkErrorMessage` (whose hints depend on browser state and are
treated as part of the environment). -/
structure FetchResponse : Type where
  status : Nat
  statusText : String := ""
  headers : List (String × String) := []
  url : String := ""
  redirected : Bool := false
  bodyRaw : String := ""
  bodyParsed : Option JObj := none

/-- JS `Response.ok`: status in the 2xx range. -/
def FetchResponse.isOk (r : FetchResponse) : Bool :=
  200 ≤ r.status && r.status < 300

/-- `RequestAuditContext` from App.tsx. -/
structure RequestAuditContext : Type where
  context : String
  scenarioIdx : Option Nat := none
  scenarioAction : Option String := none
  scenarioDescription : Option String := none

/-- `buildRequestAuditContext` from App.tsx. -/
def buildRequestAuditContext (c : RequestAuditContext) : String :=
  String.intercalate " | "
    ([c.context] ++
      (match c.scenarioIdx with
       | some i => ["scenario #" ++ toString (i + 1)]
       | none => []) ++
      (match c.scenarioAction with
       | some a => if a ≠ "" then [a] else []
       | none => []) ++
      (match c.scenarioDescription with
       | some d => if d ≠ "" then [d] else []
       | none => []))

/-- The structured result of a successful `sendScenarioRequest`. -/
structure SendOk : Type where
  json : Option JObj
  raw : String
  status : Nat
  statusText : String
  contentType : String
  effectiveUrl : String
  redirected : Bool
  redirectChain : Option String

/-- `sendScenarioRequest` from App.tsx as a state-passing function over
the audit trail: empty URL throws before any audit write; otherwise the
request entry is appended, then either the error entry (network failure)
or the response entry; a non-2xx status throws after recording the
response. -/
def sendScenarioRequest (url : String) (payload : List (String × String))
    (requestId : String) (auditContext : RequestAuditContext)
    (fetchResult : Except String FetchResponse)
    (audit : List HttpAuditEntry) :
    Except String SendOk × List HttpAuditEntry :=
  if url = "" then (.error "URL не задан в настройках", audit)
  else
    let contextLabel := buildRequestAuditContext auditContext
    let audit1 :=
      appendHttpAuditEntry audit
        { requestId := requestId, direction := .request,
          context := contextLabel, method := "POST", url := url,
          payload := some payload }
    match fetchResult with
    | .error message =>
      let audit2 :=
        appendHttpAuditEntry audit1
          { requestId := requestId, direction := .error,
            context := contextLabel, method := "POST", url := url,
            payload := some payload, errorMessage := some message }
      (.error message, audit2)
    | .ok response =>
      let raw := response.bodyRaw
      let parsed := response.bodyParsed
      let audit2 :=
        appendHttpAuditEntry audit1
          { requestId := requestId, direction := .response,
            context := contextLabel, method := "POST", url := url,
            status := some response.status,
            statusText := some response.statusText,
            ok := some response.isOk, payload := some payload,
            headers := some response.headers,
            responseBody := some (trimAuditBody raw) }
      if ¬ response.isOk then
        let serverMessage :=
          match parsed with
          | some fields =>
            match aget fields "message" with
            | some (.jstr s) => some s
            | _ => none
          | none => none
        (.error
            (buildHttpStatusErrorMessage url response.status
              response.statusText raw serverMessage),
          audit2)
      else
        let proxiedEffectiveUrl := jsOrOpt (aget response.headers "x-tester-upstream-url") ""
        let proxiedRedirectedFlag :=
          aget response.headers "x-tester-upstream-redirected" = some "1"
        let proxiedRedirectChain := jsOrOpt (aget response.headers "x-tester-upstream-redirect-chain") ""
        (.ok
            { json := parsed, raw := raw, status := response.status,
              statusText := jsOr response.statusText "",
              contentType := jsOrOpt (aget response.headers "content-type") "",
              effectiveUrl := jsOr proxiedEffectiveUrl (jsOr response.url url),
              redirected := proxiedRedirectedFlag || response.redirected,
              redirectChain :=
                if proxiedRedirectChain ≠ "" then some proxiedRedirectChain
                else none },
          audit2)

/-! ## Outcome classification and the run loop (`runQueue` in App.tsx) -/

/-- The per-scenario result variables of the `runQueue` loop body after
the try/catch block:`status`, `response`, `rawResponse`, `errorMessage`
and `actualErrorCode` (`none` models JS `null`). -/
structure ScenarioOutcome : Type where
  status : ScenarioStatus
  response : Option JObj
  raw : String
  errorMessage : Option String
  actual : Option JVal

/-- The classification block of `runQueue` (App.tsx lines 884-944): a
thrown dispatch error, a non-JSON body, an explicit `success:false`, a
missing/unparseable error code and a code mismatch each force `error`;
otherwise the scenario succeeds. -/
def classifyScenario (expected : Int) (url : String)
    (sendRes : Except String SendOk) : ScenarioOutcome :=
  match sendRes with
  | .error msg =>
    { status := .error, response := none, raw := "",
      errorMessage := some msg, actual := none }
  | .ok r =>
    match r.json with
    | none =>
      let rawPreview := makeRawResponsePreview r.raw
      let statusLabel :=
        if r.statusText ≠ "" then toString r.status ++ " " ++ r.statusText
        else toString r.status
      let details :=
        String.intercalate "\n"
          (["URL: " ++ url, "HTTP: " ++ statusLabel] ++
            (if r.contentType ≠ "" then ["Content-Type: " ++ r.contentType] else []) ++
            ["Effective URL: " ++ r.effectiveUrl] ++
            (if r.redirected then ["Redirected: yes"] else []) ++
            (match r.redirectChain with
             | some chain => if chain ≠ "" then ["Redirect chain: " ++ chain] else []
             | none => []))
      let msg :=
        if rawPreview ≠ "" then
          "Ответ сервера не является JSON.\n" ++ details ++
            "\nФрагмент ответа: " ++ rawPreview
        else "Ответ сервера не является JSON.\n" ++ details
      { status := .error, response := none, raw := r.raw,
        errorMessage := some msg, actual := none }
    | some resp =>
      let afterSuccessCheck : ScenarioStatus × Option String :=
        match aget resp "success" with
        | some (.jbool false) =>
          (.error,
            some
              (match aget resp "message" with
               | some v =>
                 if jsTruthy v then jvalToString v
                 else "Сервер вернул success = false."
               | none => "Сервер вернул success = false."))
        | _ => (.success, none)
      let numericError := normalizeErrorCode (aget resp "error")
      let actual0 : Option JVal :=
        match aget resp "error" with
        | none => none
        | some .jnull => none
        | some v => some v
      let actual : Option JVal :=
        match numericError with
        | some n => some (.jnum n)
        | none => actual0
      match numericError with
      | none =>
        { status := .error, response := some resp, raw := r.raw,
          errorMessage := some "Не удалось определить код ошибки в ответе сервера.",
          actual := actual }
      | some n =>
        if n ≠ expected then
          { status := .error, response := some resp, raw := r.raw,
            errorMessage :=
              some
                ("Ожидался код " ++ toString expected ++ ", получен " ++
                  jsDisplay (aget resp "error") ++ "."),
            actual := actual }
        else
          { status := afterSuccessCheck.1, response := some resp,
            raw := r.raw, errorMessage := afterSuccessCheck.2,
            actual := actual }

def postValToJVal : PostVal → JVal
  | .str s => .jstr s
  | .num n => .jnum n

/-- A scenario `post` object as a JSON value for the reference table
(present-but-`undefined` fields behave like absent ones under
`getByPath`). -/
def postToJVal (post : List (String × Option PostVal)) : JVal :=
  .jobj
    (post.foldl
      (fun acc kv =>
        match kv.2 with
        | some v => aset acc kv.1 (postValToJVal v)
        | none => acc)
      [])

/-- A resolved request payload as a JSON value for the reference table. -/
def payloadToJVal (pl : List (String × String)) : JVal :=
  .jobj (pl.map (fun kv => (kv.1, JVal.jstr kv.2)))

/-- `String(x || '')` for a possibly-absent post-field scalar. -/
def jsPostString (o : Option (Option PostVal)) : String :=
  match o with
  | some (some v) => if postValTruthy v then postValToString v else ""
  | _ => ""

def actionToString : ScenarioAction → String
  | .prepare => "prepare"
  | .complete => "complete"

/-- The reference table built at the start of `runQueue` from the
scenario list captured by the callback (old run results included). -/
def initialReferences (scenarios : List TestScenario) : RefTable :=
  scenarios.foldl
    (fun refs item =>
      let clickTransId := jsTrim (jsPostString (aget item.post "click_trans_id"))
      if clickTransId = "" then refs
      else
        aset refs clickTransId
          { post := some (postToJVal item.post),
            request := item.requestPayload.map payloadToJVal,
            response :=
              match item.response with
              | none => none
              | some none => some .jnull
              | some (some fields) => some (.jobj fields) })
    []

/-- Environment inputs of one run: per scenario position, the random
seed, the `sign_time` clock, the audit request id, the start/finish
clock ticks and the fetch outcome; `cancelRead r` is the value of
`cancelRef.current` at its `r`-th read (the loop reads it before
starting position `i` — read `2*i` — and after finishing it — read
`2*i+1`). -/
structure RunEnv : Type where
  seed : Nat → Nat := fun _ => 0
  nowSign : Nat → String := fun _ => ""
  requestId : Nat → String := fun _ => ""
  startTick : Nat → Nat := fun _ => 0
  finishTick : Nat → Nat := fun _ => 0
  fetch : Nat → Except String FetchResponse
  cancelRead : Nat → Bool := fun _ => false

/-- Instrumentation record of one dispatched scenario (mirrors the
arguments and results of the `sendScenarioRequest` call at a given loop
position). -/
structure StepTrace : Type where
  position : Nat
  idx : Nat
  url : String
  payload : List (String × String)
  merchantPrepareIdUsed : String
  status : ScenarioStatus
  errorMessage : Option String
  response : Option JObj

/-- The mutable state threaded through one `runQueue` invocation: the
React scenario-list state, the reference table, the chained prepare ids,
the persisted audit trail, plus the dispatch trace (instrumentation). -/
structure RunState : Type where
  scenarios : List TestScenario
  refs : RefTable
  prepareOld : String
  prepareById : List (String × String)
  audit : List HttpAuditEntry
  trace : List StepTrace

/-- One iteration of the `runQueue` loop body (App.tsx lines 851-1009):
mark running, build the request context, pre-register post/request in
the reference table, dispatch, classify, capture a prepare id from a
`prepare` response, record the result and register the response. -/
def runScenarioStep (settings : TesterSettings) (env : RunEnv) (index : Nat)
    (scenario : TestScenario) (st : RunState) : RunState :=
  let startedAt := env.startTick index
  let scen1 :=
    st.scenarios.map
      (fun item =>
        if item.idx = scenario.idx then
          { item with status := .running, startedAt := some startedAt }
        else item)
  let ctx :=
    buildRequestContext scenario settings st.prepareOld st.prepareById
      st.refs { seed := env.seed index, nowSignTime := env.nowSign index }
  let scenarioClickTransId := jsTrim ((aget ctx.payload "click_trans_id").getD "")
  let refs1 :=
    if scenarioClickTransId ≠ "" then
      aset st.refs scenarioClickTransId
        { (aget st.refs scenarioClickTransId).getD {} with
            post := some (postToJVal scenario.post)
            request := some (payloadToJVal ctx.payload) }
    else st.refs
  let sent :=
    sendScenarioRequest ctx.url ctx.payload (env.requestId index)
      { context := "scenario request", scenarioIdx := some scenario.idx,
        scenarioAction := some (actionToString scenario.action),
        scenarioDescription := some scenario.description }
      (env.fetch index) st.audit
  let sendRes := sent.1
  let audit1 := sent.2
  let outcome := classifyScenario scenario.expected_error_code ctx.url sendRes
  let prepPair : String × List (String × String) :=
    match sendRes with
    | .ok r =>
      if scenario.action = ScenarioAction.prepare then
        match r.json with
        | some resp =>
          match aget resp "merchant_prepare_id" with
          | some (.jstr s) =>
            let prepareId := jsTrim s
            if prepareId ≠ "" then
              (prepareId,
                if scenarioClickTransId ≠ "" then
                  aset st.prepareById scenarioClickTransId prepareId
                else st.prepareById)
            else (st.prepareOld, st.prepareById)
          | _ => (st.prepareOld, st.prepareById)
        | none => (st.prepareOld, st.prepareById)
      else (st.prepareOld, st.prepareById)
    | .error _ => (st.prepareOld, st.prepareById)
  let finishedAt := env.finishTick index
  let durationMs : Int := (finishedAt : Int) - (startedAt : Int)
  let scen2 :=
    scen1.map
      (fun item =>
        if item.idx = scenario.idx then
          { item with
            status := outcome.status
            response := some outcome.response
            rawResponse := some outcome.raw
            errorMessage := outcome.errorMessage
            requestPayload := some ctx.payload
            actualErrorCode := some outcome.actual
            finishedAt := some finishedAt
            durationMs := some durationMs }
        else item)
  let refs2 :=
    if scenarioClickTransId ≠ "" then
      aset refs1 scenarioClickTransId
        { (aget refs1 scenarioClickTransId).getD {} with
            post := some (postToJVal scenario.post)
            request := some (payloadToJVal ctx.payload)
            response :=
              some
                (match outcome.response with
                 | none => JVal.jnull
                 | some fields => JVal.jobj fields) }
    else refs1
  { scenarios := scen2, refs := refs2, prepareOld := prepPair.1,
    prepareById := prepPair.2, audit := audit1,
    trace :=
      st.trace ++
        [{ position := index, idx := scenario.idx, url := ctx.url,
           payload := ctx.payload,
           merchantPrepareIdUsed := ctx.merchantPrepareIdUsed,
           status := outcome.status, errorMessage := outcome.errorMessage,
           response := outcome.response }] }

/-- The `for` loop of `runQueue` with its two cooperative cancellation
checks: before starting each scenario and immediately after it
completes. -/
def runQueueLoop (settings : TesterSettings) (env : RunEnv) :
    List TestScenario → Nat → RunState → RunState
  | [], _, st => st
  | scenario :: rest, index, st =>
    if env.cancelRead (2 * index) then st
    else
      let st2 := runScenarioStep settings env index scenario st
      if env.cancelRead (2 * index + 1) then st2
      else runQueueLoop settings env rest (index + 1) st2

/-- `runQueue` from App.tsx.  `capturedScenarios` is the scenario list
captured by the callback closure (it seeds the reference table);
`stateScenarios` is the React scenario-list state when the loop starts
(the armed snapshot, for a full-queue run); `snapshot` is the list of
scenarios to execute; `audit0` is the persisted audit trail. -/
def runQueue (capturedScenarios stateScenarios snapshot : List TestScenario)
    (settings : TesterSettings) (env : RunEnv)
    (audit0 : List HttpAuditEntry) : RunState :=
  runQueueLoop settings env snapshot 0
    { scenarios := stateScenarios,
      refs := initialReferences capturedScenarios,
      prepareOld := jsOr settings.presetMerchantPrepareId "",
      prepareById := [],
      audit := audit0,
      trace := [] }

/-- The full argument record of one `buildRequestContext` call. -/
structure BuildCall : Type where
  scenario : TestScenario
  settings : TesterSettings
  previousMerchantPrepareId : String
  merchantPrepareIdByClickTransId : List (String × String)
  scenarioReferences : RefTable
  env : BuildEnv

/-- `buildRequestContext` as a state-passing call.  In the source every
assignment of the function body targets the freshly created `payload`
object (`payload.service_id = ...`, `payload.error = ...`, ...); the
scenario record and its post map, the settings object, the chained
prepare-id values and the reference table are only read, so the ambient
call state is returned unchanged alongside the result. -/
def buildRequestContextCall (call : BuildCall) : BuildCall × RequestContext :=
  (call,
    buildRequestContext call.scenario call.settings
      call.previousMerchantPrepareId call.merchantPrepareIdByClickTransId
      call.scenarioReferences call.env)

/-- The target URL of a scenario's dispatch (depends only on the settings
and the scenario's action). -/
def scenarioDispatchUrl (settings : TesterSettings)
    (scenario : TestScenario) : String :=
  normalizeEndpointUrl
    (if scenario.action = ScenarioAction.complete then settings.completeUrl
     else settings.prepareUrl)

/-- The parsed JSON body observed by the loop body for the scenario at a
given position: `none` when the dispatch throws (empty URL, network
failure or non-2xx status) or the body is not a JSON object. -/
def dispatchedJson (settings : TesterSettings) (env : RunEnv) (index : Nat)
    (scenario : TestScenario) : Option JObj :=
  if scenarioDispatchUrl settings scenario = "" then none
  else
    match env.fetch index with
    | .error _ => none
    | .ok r => if r.isOk then r.bodyParsed else none

/-- The prepare id captured by the loop body at a given position: the
trimmed `merchant_prepare_id` string of a `prepare` scenario's parsed
response, when non-empty. -/
def capturedPrepareId (settings : TesterSettings) (env : RunEnv)
    (index : Nat) (scenario : TestScenario) : Option String :=
  if scenario.action = ScenarioAction.prepare then
    match dispatchedJson settings env index scenario with
    | some resp =>
      match aget resp "merchant_prepare_id" with
      | some (.jstr s) => if jsTrim s ≠ "" then some (jsTrim s) else none
      | _ => none
    | none => none
  else none

/-- Sequential execution of a list of scenarios with no cancellation
checks (the loop body iterated); used to state what a cancellation-free
prefix of `runQueueLoop` computes. -/
def runSteps (settings : TesterSettings) (env : RunEnv) :
    List TestScenario → Nat → RunState → RunState
  | [], _, st => st
  | scenario :: rest, index, st =>
    runSteps settings env rest (index + 1)
      (runScenarioStep settings env index scenario st)

/-- First prepare scenario of the C3 instances (correlation id `100`). -/
def c3A1 : TestScenario :=
  { idx := 0, action := ScenarioAction.prepare,
    post := [("click_trans_id", some (PostVal.str "100"))] }

/-- Second prepare scenario of the C3 counterexample (correlation id
`200`). -/
def c3A2 : TestScenario :=
  { idx := 1, action := ScenarioAction.prepare,
    post := [("click_trans_id", some (PostVal.str "200"))] }

/-- Complete scenario of the C3 instances (correlation id `300`, no
explicit `merchant_prepare_id`). -/
def c3B : TestScenario :=
  { idx := 2, action := ScenarioAction.complete,
    post := [("click_trans_id", some (PostVal.str "300"))] }

/-- Queue of the C3 counterexample: prepare, prepare, complete. -/
def c3Scenarios : List TestScenario := [c3A1, c3A2, c3B]

/-- Queue of the C3 witness: one prepare, then the complete scenario. -/
def c3wScenarios : List TestScenario := [c3A1, c3B]

/-- Settings of the C3 instances. -/
def c3Settings : TesterSettings :=
  { prepareUrl := "http://h/p", completeUrl := "http://h/c",
    serviceId := "1", secretKey := "k", merchantTransId := "m",
    amount := "5" }

/-- Environment of the C3 instances: every dispatch returns HTTP 200 with
`error = 0` and a `merchant_prepare_id` of `P1` at position 0 and `P2`
later; no cancellation. -/
def c3Env : RunEnv :=
  { fetch := fun i =>
      Except.ok
        { status := 200, bodyRaw := "{}",
          bodyParsed :=
            some [("error", JVal.jnum 0),
              ("merchant_prepare_id",
                JVal.jstr (if i = 0 then "P1" else "P2"))] } }

/-- Scenarios of the C8 witness. -/
def c8S0 : TestScenario :=
  { idx := 0, action := ScenarioAction.prepare,
    post := [("click_trans_id", some (PostVal.str "100"))] }

def c8S1 : TestScenario :=
  { idx := 1, action := ScenarioAction.complete,
    post := [("click_trans_id", some (PostVal.str "300"))] }

def c8Scenarios : List TestScenario := [c8S0, c8S1]

/-- Settings of the C8 witness. -/
def c8Settings : TesterSettings :=
  { prepareUrl := "http://h/p", completeUrl := "http://h/c",
    serviceId := "1", secretKey := "k", merchantTransId := "m",
    amount := "5" }

/-- Environment of the C8 witness: every dispatch returns HTTP 200 with a
parsed body, and the cancellation flag flips to true at its second read
(the check right after scenario 0 finishes). -/
def c8Env : RunEnv :=
  { fetch := fun _ =>
      Except.ok
        { status := 200, bodyRaw := "{}",
          bodyParsed := some [("error", JVal.jnum 0)] },
    cancelRead := fun r => decide (1 ≤ r) }

/-! ## Helper lemmas: the template scanner -/

theorem resolveCharsFuel_of_no_match (references : RefTable) :
    ∀ (fuel : Nat) (l : List Char), hasTemplateMatchFuel fuel l = false →
      resolveCharsFuel references fuel l = l := by
  intro fuel
  induction fuel using Nat.strong_induction_on with
  | _ fuel ih =>
    intro l hm
    rw [hasTemplateMatchFuel.eq_def] at hm
    rw [resolveCharsFuel.eq_def]
    split at hm
    · rfl
    · rfl
    · split at hm
      · exact absurd hm (by simp)
      · refine congrArg _ (ih _ ?_ _ hm)
        omega
    · refine congrArg _ (ih _ ?_ _ hm)
      omega

theorem takeWhile_append_stop {body rest : List Char}
    (hb : ∀ c ∈ body, c ≠ '}') :
    (body ++ '}' :: rest).takeWhile (fun c => c ≠ '}') = body := by
  induction body with
  | nil =>
    rw [List.nil_append, List.takeWhile_cons_of_neg]
    simp
  | cons b bs ih =>
    rw [List.cons_append,
      List.takeWhile_cons_of_pos (by simp [hb b (by simp)]),
      ih (fun c hc => hb c (by simp [hc]))]

theorem dropWhile_append_stop {body rest : List Char}
    (hb : ∀ c ∈ body, c ≠ '}') :
    (body ++ '}' :: rest).dropWhile (fun c => c ≠ '}') = '}' :: rest := by
  induction body with
  | nil =>
    rw [List.nil_append, List.dropWhile_cons_of_neg]
    simp
  | cons b bs ih =>
    rw [List.cons_append,
      List.dropWhile_cons_of_pos (by simp [hb b (by simp)]),
      ih (fun c hc => hb c (by simp [hc]))]

theorem resolveCharsFuel_congr (references : RefTable) :
    ∀ (n : Nat) (l : List Char) (f g : Nat), l.length = n →
      l.length ≤ f → l.length ≤ g →
      resolveCharsFuel references f l = resolveCharsFuel references g l := by
  intro n
  induction n using Nat.strong_induction_on with
  | _ n ih =>
    intro l f g hn hf hg
    rcases l with _ | ⟨c1, _ | ⟨c2, cs2⟩⟩
    · rw [resolveCharsFuel.eq_1, resolveCharsFuel.eq_1]
    · obtain ⟨f2, rfl⟩ : ∃ f2, f = f2 + 1 := by
        refine ⟨f - 1, ?_⟩; simp at hf; omega
      obtain ⟨g2, rfl⟩ : ∃ g2, g = g2 + 1 := by
        refine ⟨g - 1, ?_⟩; simp at hg; omega
      rw [resolveCharsFuel.eq_4, resolveCharsFuel.eq_4] <;>
        first
          | (intro cs2 hc hcs; exact absurd hcs (by simp))
          | rw [resolveCharsFuel.eq_1, resolveCharsFuel.eq_1]
    · obtain ⟨f2, rfl⟩ : ∃ f2, f = f2 + 1 := by
        refine ⟨f - 1, ?_⟩; simp at hf; omega
      obtain ⟨g2, rfl⟩ : ∃ g2, g = g2 + 1 := by
        refine ⟨g - 1, ?_⟩; simp at hg; omega
      by_cases h1 : c1 = '{' ∧ c2 = '{'
      · obtain ⟨rfl, rfl⟩ := h1
        rw [resolveCharsFuel.eq_3, resolveCharsFuel.eq_3]
        split
        · rename_i b bs tail htw hdw
          have hlen := congrArg List.length hdw
          have h2 : (List.dropWhile (fun c => decide (c ≠ '}')) cs2).length ≤ cs2.length :=
            (List.dropWhile_sublist _).length_le
          simp only [List.length_cons] at hlen
          refine congrArg _ (ih tail.length ?_ _ _ _ rfl ?_ ?_)
          · simp only [List.length_cons] at hn; omega
          · simp only [List.length_cons] at hf; omega
          · simp only [List.length_cons] at hg; omega
        · refine congrArg _ (ih (cs2.length + 1) ?_ _ _ _ (by simp) ?_ ?_)
          · simp only [List.length_cons] at hn; omega
          · simp only [List.length_cons] at hf ⊢; omega
          · simp only [List.length_cons] at hg ⊢; omega
      · rw [resolveCharsFuel.eq_4, resolveCharsFuel.eq_4]
        · refine congrArg _ (ih (cs2.length + 1) ?_ _ _ _ (by simp) ?_ ?_)
          · simp only [List.length_cons] at hn; omega
          · simp only [List.length_cons] at hf ⊢; omega
          · simp only [List.length_cons] at hg ⊢; omega
        · intro cs3 hc hcs
          injection hcs with hc2 _
          exact h1 ⟨hc, hc2⟩
        · intro cs3 hc hcs
          injection hcs with hc2 _
          exact h1 ⟨hc, hc2⟩

theorem resolveChars_match_head (references : RefTable) (body tail : List Char)
    (hne : body ≠ []) (hb : ∀ c ∈ body, c ≠ '}') :
    resolveChars references ('{' :: '{' :: (body ++ '}' :: '}' :: tail)) =
      (resolveExpression references (String.mk body)).toList ++
        resolveChars references tail := by
  obtain ⟨b, bs, rfl⟩ : ∃ b bs, body = b :: bs := by
    cases body with
    | nil => exact absurd rfl hne
    | cons b bs => exact ⟨b, bs, rfl⟩
  show resolveCharsFuel references _ _ = _ ++ resolveCharsFuel references _ _
  rw [show ('{' :: '{' :: ((b :: bs) ++ '}' :: '}' :: tail)).length =
      (((b :: bs) ++ '}' :: '}' :: tail).length) + 1 + 1 from by simp]
  rw [resolveCharsFuel.eq_3, takeWhile_append_stop hb, dropWhile_append_stop hb]
  exact congrArg _
    (resolveCharsFuel_congr references tail.length tail _ _ rfl
      (by simp; omega) (le_refl _))

theorem getByPath_none (path : List String) : getByPath none path = none := by
  induction path with
  | nil => rfl
  | cons seg rest ih =>
    show getByPath (if seg = "" then none else none) rest = none
    rw [ite_self]
    exact ih

/-! ## Claim C6 -/

/-- **C6**: for every input and reference table, template resolution is a
total function into strings (every definition involved is a total Lean
function), and a placeholder with fewer than 3 dot-separated segments, an
unknown scope, an unknown correlation id, a non-mapping intermediate
value on the walk, or a failed field walk (absent field) each resolves to
the empty string; the last conjunct connects `resolveTemplateValue` to
the per-placeholder resolver `resolveExpression`. -/
theorem resolveTemplate_malformed_yields_empty (references : RefTable) :
    (∀ raw : String, (splitOnDot (jsTrim raw)).length < 3 →
        resolveExpression references raw = "")
  ∧ (∀ (raw scope second third : String) (rest : List String),
        splitOnDot (jsTrim raw) = scope :: second :: third :: rest →
        scope ≠ "scenario" → scope ≠ "response" → scope ≠ "request" →
        scope ≠ "post" → resolveExpression references raw = "")
  ∧ (∀ (raw scope second third : String) (rest : List String),
        splitOnDot (jsTrim raw) = scope :: second :: third :: rest →
        aget references second = none →
        resolveExpression references raw = "")
  ∧ (∀ path : List String, getByPath none path = none)
  ∧ (∀ (v : JVal) (seg : String) (rest : List String),
        (∀ fields, v ≠ JVal.jobj fields) → seg ≠ "" →
        getByPath (some v) (seg :: rest) = none)
  ∧ (∀ (raw second third : String) (rest : List String)
        (entry : ScenarioReferenceEntry),
        splitOnDot (jsTrim raw) = "response" :: second :: third :: rest →
        aget references second = some entry →
        getByPath entry.response (third :: rest) = none →
        resolveExpression references raw = "")
  ∧ (∀ (raw second src : String) (rest : List String)
        (entry : ScenarioReferenceEntry),
        splitOnDot (jsTrim raw) = "scenario" :: second :: src :: rest →
        aget references second = some entry →
        getByPath
            (if src = "response" then entry.response
             else if src = "request" then entry.request
             else if src = "post" then entry.post
             else none) rest = none →
        resolveExpression references raw = "")
  ∧ (∀ body : List Char, body ≠ [] → (∀ c ∈ body, c ≠ '}') →
        resolveTemplateValue references
            (String.mk ('{' :: '{' :: (body ++ ['}', '}']))) =
          resolveExpression references (String.mk body)) := by
  refine ⟨?_, ?_, ?_, getByPath_none, ?_, ?_, ?_, ?_⟩
  · intro raw h
    simp [resolveExpression, h]
  · intro raw scope second third rest hp h1 h2 h3 h4
    simp [resolveExpression, hp, h1, h2, h3, h4]
  · intro raw scope second third rest hp hid
    by_cases h1 : scope = "scenario"
    · simp [resolveExpression, hp, h1, hid]
    · by_cases h2 : scope = "response"
      · simp [resolveExpression, hp, h1, h2, hid]
      · by_cases h3 : scope = "request"
        · simp [resolveExpression, hp, h1, h2, h3, hid]
        · by_cases h4 : scope = "post"
          · simp [resolveExpression, hp, h1, h2, h3, h4, hid]
          · simp [resolveExpression, hp, h1, h2, h3, h4]
  · intro v seg rest hv hseg
    show getByPath (if seg = "" then some v else _) rest = none
    rw [if_neg hseg]
    cases v with
    | jobj fields => exact absurd rfl (hv fields)
    | jnull => exact getByPath_none rest
    | jbool b => exact getByPath_none rest
    | jnum n => exact getByPath_none rest
    | jstr s => exact getByPath_none rest
  · intro raw second third rest entry hp he hg
    simp [resolveExpression, hp, he, hg]
  · intro raw second src rest entry hp he hg
    simp only [resolveExpression, hp]
    simp only [List.length_cons]
    norm_num
    simp [he, hg]
  · intro body hne hb
    have h := resolveChars_match_head references body [] hne hb
    simp only [resolveTemplateValue]
    have hlist : (String.mk ('{' :: '{' :: (body ++ ['}', '}']))).toList =
        '{' :: '{' :: (body ++ '}' :: '}' :: ([] : List Char)) := rfl
    rw [hlist, h]
    show String.mk ((resolveExpression references (String.mk body)).toList ++ []) = _
    rw [List.append_nil]
    rfl

/-- Witness for C6 at concrete inputs: a two-segment expression, an
unknown scope, an unknown correlation id, a non-mapping walk and a full
`resolveTemplateValue` call each yield the empty string. -/
theorem resolveTemplate_malformed_yields_empty_witness :
    resolveExpression [] "a.b" = "" ∧
    resolveExpression [] "weird.a.b.c" = "" ∧
    resolveExpression [] "response.unknown.field" = "" ∧
    getByPath (some (JVal.jstr "x")) ["f"] = none ∧
    resolveExpression
        [("id1", { response := some (JVal.jstr "nonobj") })]
        "response.id1.deep.field" = "" ∧
    resolveTemplateValue [] "{{a.b}}" = "" := by
  refine ⟨?_, ?_, ?_, ?_, ?_, ?_⟩
  · exact (resolveTemplate_malformed_yields_empty []).1 "a.b" (by decide)
  · exact (resolveTemplate_malformed_yields_empty []).2.1 "weird.a.b.c"
      "weird" "a" "b" ["c"] (by decide) (by decide) (by decide) (by decide)
      (by decide)
  · exact (resolveTemplate_malformed_yields_empty []).2.2.1
      "response.unknown.field" "response" "unknown" "field" [] (by decide) rfl
  · exact (resolveTemplate_malformed_yields_empty []).2.2.2.2.1
      (JVal.jstr "x") "f" [] (by intro fields h; cases h) (by decide)
  · exact (resolveTemplate_malformed_yields_empty
        [("id1", { response := some (JVal.jstr "nonobj") })]).2.2.2.2.2.1
      "response.id1.deep.field" "id1" "deep" ["field"]
      { response := some (JVal.jstr "nonobj") } (by decide) rfl rfl
  · have h := (resolveTemplate_malformed_yields_empty []).2.2.2.2.2.2.2
      "a.b".toList (by decide) (by decide)
    have : String.mk ('{' :: '{' :: ("a.b".toList ++ ['}', '}'])) = "{{a.b}}" := by decide
    rw [this] at h
    rw [h]
    exact (resolveTemplate_malformed_yields_empty []).1 "a.b" (by decide)

/-! ## Claim C7 -/

/-- **C7**: template resolution is the identity on strings in which the
scanner finds no `{{...}}` placeholder, and resolution is a single
left-to-right pass: a resolved placeholder is emitted verbatim and only
the remainder of the input is re-scanned (so multiple placeholders are
resolved independently and resolved output is never re-scanned). -/
theorem resolveTemplate_identity_and_single_pass (references : RefTable) :
    (∀ s : String, hasTemplateMatch s.toList = false →
        resolveTemplateValue references s = s)
  ∧ (∀ body tail : List Char, body ≠ [] → (∀ c ∈ body, c ≠ '}') →
        resolveChars references ('{' :: '{' :: (body ++ '}' :: '}' :: tail)) =
          (resolveExpression references (String.mk body)).toList ++
            resolveChars references tail) := by
  constructor
  · intro s hm
    show String.mk (resolveCharsFuel references s.toList.length s.toList) = s
    rw [resolveCharsFuel_of_no_match references s.toList.length s.toList hm]
    rfl
  · intro body tail hne hb
    exact resolveChars_match_head references body tail hne hb

/-- Witness for C7: a placeholder-free string is returned unchanged, and
a placeholder followed by text that itself contains a placeholder is
resolved in one pass with only the tail re-scanned. -/
theorem resolveTemplate_identity_and_single_pass_witness :
    resolveTemplateValue [] "plain \x7bx\x7d text \x7d\x7d \x7bno" = "plain \x7bx\x7d text \x7d\x7d \x7bno" ∧
    resolveChars [] ('{' :: '{' :: ("a.b.c".toList ++ '}' :: '}' :: "z{{q}}".toList)) =
      (resolveExpression [] (String.mk "a.b.c".toList)).toList ++
        resolveChars [] "z{{q}}".toList := by
  constructor
  · exact (resolveTemplate_identity_and_single_pass []).1
      "plain \x7bx\x7d text \x7d\x7d \x7bno" (by decide)
  · exact (resolveTemplate_identity_and_single_pass []).2
      "a.b.c".toList "z{{q}}".toList (by decide) (by decide)

/-! ## Claim C9 -/

/-- **C9**: every dispatch attempt appends its request entry and then
either its response entry (any HTTP status) or its error entry (network
failure) to the audit trail, and every append keeps at most
`maxHttpAuditEntries` entries, dropping the oldest first (the result is a
suffix of the appended list that always retains the new entry). -/
theorem audit_trail_request_then_result_bounded :
    (∀ (url : String) (payload : List (String × String)) (requestId : String)
        (auditContext : RequestAuditContext)
        (fetchResult : Except String FetchResponse)
        (audit : List HttpAuditEntry), url ≠ "" →
      ∃ reqEntry finEntry : HttpAuditEntry,
        (sendScenarioRequest url payload requestId auditContext fetchResult
              audit).2 =
            appendHttpAuditEntry (appendHttpAuditEntry audit reqEntry) finEntry
          ∧ reqEntry.direction = .request ∧ reqEntry.url = url
          ∧ reqEntry.payload = some payload
          ∧ (∀ msg, fetchResult = .error msg →
              finEntry.direction = .error ∧ finEntry.errorMessage = some msg)
          ∧ (∀ r, fetchResult = .ok r →
              finEntry.direction = .response ∧ finEntry.status = some r.status
                ∧ finEntry.responseBody = some (trimAuditBody r.bodyRaw)))
  ∧ (∀ (audit : List HttpAuditEntry) (entry : HttpAuditEntry),
      (appendHttpAuditEntry audit entry).length ≤ maxHttpAuditEntries
        ∧ (appendHttpAuditEntry audit entry).length =
            min (audit.length + 1) maxHttpAuditEntries
        ∧ (appendHttpAuditEntry audit entry) <:+ (audit ++ [entry])
        ∧ (appendHttpAuditEntry audit entry).getLast? = some entry) := by
  constructor
  · intro url payload requestId auditContext fetchResult audit hurl
    match fetchResult with
    | .error msg =>
      refine
        ⟨{ requestId := requestId, direction := .request,
           context := buildRequestAuditContext auditContext, method := "POST",
           url := url, payload := some payload },
         { requestId := requestId, direction := .error,
           context := buildRequestAuditContext auditContext, method := "POST",
           url := url, payload := some payload, errorMessage := some msg },
         ?_, rfl, rfl, rfl, ?_, ?_⟩
      · simp only [sendScenarioRequest, if_neg hurl]
      · intro m hm
        injection hm with hm
        subst hm
        exact ⟨rfl, rfl⟩
      · intro r hr
        cases hr
    | .ok r =>
      refine
        ⟨{ requestId := requestId, direction := .request,
           context := buildRequestAuditContext auditContext, method := "POST",
           url := url, payload := some payload },
         { requestId := requestId, direction := .response,
           context := buildRequestAuditContext auditContext, method := "POST",
           url := url, status := some r.status,
           statusText := some r.statusText, ok := some r.isOk,
           payload := some payload, headers := some r.headers,
           responseBody := some (trimAuditBody r.bodyRaw) },
         ?_, rfl, rfl, rfl, ?_, ?_⟩
      · simp only [sendScenarioRequest, if_neg hurl]
        split <;> rfl
      · intro m hm
        cases hm
      · intro r2 hr
        injection hr with hr
        subst hr
        exact ⟨rfl, rfl, rfl⟩
  · intro audit entry
    refine ⟨?_, ?_, ?_, ?_⟩
    · simp only [appendHttpAuditEntry, List.length_drop, List.length_append,
        maxHttpAuditEntries]
      omega
    · simp only [appendHttpAuditEntry, List.length_drop, List.length_append,
        maxHttpAuditEntries]
      simp only [List.length_cons, List.length_nil]
      omega
    · exact List.drop_suffix _ _
    · have hle : (audit ++ [entry]).length - maxHttpAuditEntries ≤ audit.length := by
        simp [maxHttpAuditEntries]
      rw [appendHttpAuditEntry,
        List.drop_append_of_le_length hle]
      exact List.getLast?_concat _

/-- Witness for C9: a network-failing dispatch with a non-empty URL
appends its request entry and its error entry. -/
theorem audit_trail_request_then_result_bounded_witness :
    ∃ reqEntry finEntry : HttpAuditEntry,
      (sendScenarioRequest "http://host/x" [("a", "1")] "rid"
            { context := "ctx" } (Except.error "boom") []).2 =
          appendHttpAuditEntry (appendHttpAuditEntry [] reqEntry) finEntry
        ∧ reqEntry.direction = .request ∧ reqEntry.url = "http://host/x"
        ∧ reqEntry.payload = some [("a", "1")]
        ∧ (∀ msg, (Except.error "boom" : Except String FetchResponse) = .error msg →
            finEntry.direction = .error ∧ finEntry.errorMessage = some msg)
        ∧ (∀ r, (Except.error "boom" : Except String FetchResponse) = .ok r →
            finEntry.direction = .response ∧ finEntry.status = some r.status
              ∧ finEntry.responseBody = some (trimAuditBody r.bodyRaw)) :=
  audit_trail_request_then_result_bounded.1 "http://host/x" [("a", "1")] "rid"
    { context := "ctx" } (Except.error "boom") [] (by decide)

/-! ## Claim C1 -/

/-- **C1**: when the dispatch succeeds and the body parses as a JSON
object, the classified status is `success` iff the `success` field is not
explicitly `false` and the extracted numeric error code equals the
expected one; an unparseable body or a thrown dispatch error yields
`error`. -/
theorem scenario_status_success_iff (expected : Int) (url : String)
    (sendRes : Except String SendOk) :
    (∀ (r : SendOk) (resp : JObj), sendRes = .ok r → r.json = some resp →
        ((classifyScenario expected url sendRes).status = .success ↔
          (aget resp "success" ≠ some (JVal.jbool false) ∧
            normalizeErrorCode (aget resp "error") = some expected)))
  ∧ (∀ r : SendOk, sendRes = .ok r → r.json = none →
      (classifyScenario expected url sendRes).status = .error)
  ∧ (∀ msg : String, sendRes = .error msg →
      (classifyScenario expected url sendRes).status = .error) := by
  refine ⟨?_, ?_, ?_⟩
  · intro r resp hr hj
    subst hr
    simp only [classifyScenario, hj]
    rcases hn : normalizeErrorCode (aget resp "error") with _ | n
    · simp [hn]
    · by_cases hne : n = expected
      · subst hne
        rcases hs : aget resp "success" with _ | v
        · simp [hn, hs]
        · cases v with
          | jbool b => cases b <;> simp [hn, hs]
          | jnull => simp [hn, hs]
          | jnum m => simp [hn, hs]
          | jstr s => simp [hn, hs]
          | jobj fields => simp [hn, hs]
      · simp [hn, hne]
  · intro r hr hj
    subst hr
    simp [classifyScenario, hj]
  · intro msg hr
    subst hr
    simp [classifyScenario]

/-- Witness for C1: a matching error code with no `success:false` is
classified `success`. -/
theorem scenario_status_success_iff_witness :
    (classifyScenario 0 "http://h"
        (.ok { json := some [("error", JVal.jnum 0)], raw := "{}",
               status := 200, statusText := "", contentType := "",
               effectiveUrl := "http://h", redirected := false,
               redirectChain := none })).status = .success :=
  ((scenario_status_success_iff 0 "http://h" _).1 _ [("error", JVal.jnum 0)]
    rfl rfl).mpr
    ⟨fun h => Option.noConfusion
        (show (none : Option JVal) = some (JVal.jbool false) from h),
      rfl⟩

/-! ## Claim C2 -/

/-- **C2**: a parsed JSON-object response whose numeric error code
differs from the expected one is classified `error`, and the recorded
`errorMessage` mentions both the expected code and the received `error`
value. -/
theorem scenario_code_mismatch_message (expected : Int) (url : String)
    (sendRes : Except String SendOk) (r : SendOk) (resp : JObj) (n : Int)
    (hr : sendRes = .ok r) (hj : r.json = some resp)
    (hn : normalizeErrorCode (aget resp "error") = some n)
    (hne : n ≠ expected) :
    (classifyScenario expected url sendRes).status = .error
  ∧ ∃ msg : String,
      (classifyScenario expected url sendRes).errorMessage = some msg
      ∧ (∃ a b : String, msg = a ++ toString expected ++ b)
      ∧ (∃ a b : String, msg = a ++ jsDisplay (aget resp "error") ++ b) := by
  subst hr
  simp only [classifyScenario, hj, hn]
  rw [if_pos hne]
  refine ⟨rfl, _, rfl, ?_, ?_⟩
  · exact ⟨"Ожидался код ",
      ", получен " ++ jsDisplay (aget resp "error") ++ ".",
      by simp [String.append_assoc]⟩
  · exact ⟨"Ожидался код " ++ toString expected ++ ", получен ", ".",
      by simp [String.append_assoc]⟩

/-- Witness for C2: expected 0, received 5. -/
theorem scenario_code_mismatch_message_witness :
    (classifyScenario 0 "http://h"
        (.ok { json := some [("error", JVal.jnum 5)], raw := "{}",
               status := 200, statusText := "", contentType := "",
               effectiveUrl := "http://h", redirected := false,
               redirectChain := none })).status = .error
  ∧ ∃ msg : String,
      (classifyScenario 0 "http://h"
          (.ok { json := some [("error", JVal.jnum 5)], raw := "{}",
                 status := 200, statusText := "", contentType := "",
                 effectiveUrl := "http://h", redirected := false,
                 redirectChain := none })).errorMessage = some msg
      ∧ (∃ a b : String, msg = a ++ toString (0 : Int) ++ b)
      ∧ (∃ a b : String, msg = a ++ jsDisplay (aget [("error", JVal.jnum 5)] "error") ++ b) :=
  scenario_code_mismatch_message 0 "http://h" _ _ [("error", JVal.jnum 5)] 5
    rfl rfl (by decide) (by decide)

/-! ## Helper lemmas: payload field chasing -/

theorem aget_aset_ite {α : Type} (m : List (String × α)) (k k2 : String)
    (v : α) :
    aget (aset m k v) k2 = if k = k2 then some v else aget m k2 := by
  by_cases h : k = k2
  · subst h; simp
  · simp [aget_aset_ne _ _ _ _ h, h]

theorem aget_ite {α : Type} (c : Prop) [Decidable c]
    (m1 m2 : List (String × α)) (k : String) :
    aget (if c then m1 else m2) k = if c then aget m1 k else aget m2 k :=
  apply_ite (fun m => aget m k) c m1 m2

/-! ## Helper lemmas: the run loop -/

section RunLoopLemmas

variable {settings : TesterSettings} {env : RunEnv}
theorem runScenarioStep_trace (index : Nat) (sc : TestScenario) (st : RunState) :
    ∃ e, (runScenarioStep settings env index sc st).trace = st.trace ++ [e] :=
  ⟨_, rfl⟩

theorem runScenarioStep_trace_entry (index : Nat) (sc : TestScenario)
    (st : RunState) :
    ∃ e, (runScenarioStep settings env index sc st).trace = st.trace ++ [e]
      ∧ e.position = index ∧ e.idx = sc.idx
      ∧ e.payload =
          (buildRequestContext sc settings st.prepareOld st.prepareById st.refs
            { seed := env.seed index, nowSignTime := env.nowSign index }).payload
      ∧ e.merchantPrepareIdUsed =
          (buildRequestContext sc settings st.prepareOld st.prepareById st.refs
            { seed := env.seed index,
              nowSignTime := env.nowSign index }).merchantPrepareIdUsed :=
  ⟨_, rfl, rfl, rfl, rfl, rfl⟩

theorem runSteps_append (l1 l2 : List TestScenario) (index : Nat) (st : RunState) :
    runSteps settings env (l1 ++ l2) index st =
      runSteps settings env l2 (index + l1.length) (runSteps settings env l1 index st) := by
  induction l1 generalizing index st with
  | nil => simp [runSteps]
  | cons sc rest ih =>
    simp only [List.cons_append, runSteps, List.length_cons, List.append_eq]
    rw [ih]
    congr 1
    omega

theorem runSteps_trace_length (l : List TestScenario) (index : Nat) (st : RunState) :
    (runSteps settings env l index st).trace.length = st.trace.length + l.length := by
  induction l generalizing index st with
  | nil => simp [runSteps]
  | cons sc rest ih =>
    obtain ⟨e, he⟩ := @runScenarioStep_trace settings env index sc st
    simp only [runSteps, List.length_cons, ih, he, List.length_append,
      List.length_cons, List.length_nil]
    omega

theorem runQueueLoop_trace_ext (l : List TestScenario) (index : Nat) (st : RunState) :
    ∃ ext, (runQueueLoop settings env l index st).trace = st.trace ++ ext := by
  induction l generalizing index st with
  | nil => exact ⟨[], by simp [runQueueLoop]⟩
  | cons sc rest ih =>
    obtain ⟨e, he⟩ := @runScenarioStep_trace settings env index sc st
    simp only [runQueueLoop]
    by_cases h1 : env.cancelRead (2 * index) = true
    · exact ⟨[], by simp [h1]⟩
    · rw [if_neg h1]
      by_cases h2 : env.cancelRead (2 * index + 1) = true
      · rw [if_pos h2]
        exact ⟨[e], he⟩
      · rw [if_neg h2]
        obtain ⟨ext2, hext2⟩ := ih (index + 1) (runScenarioStep settings env index sc st)
        exact ⟨[e] ++ ext2, by rw [hext2, he, List.append_assoc]⟩

theorem runQueueLoop_no_cancel_front (l1 l2 : List TestScenario) (index : Nat)
    (st : RunState)
    (h : ∀ i, i < l1.length → env.cancelRead (2 * (index + i)) = false ∧
        env.cancelRead (2 * (index + i) + 1) = false) :
    runQueueLoop settings env (l1 ++ l2) index st =
      runQueueLoop settings env l2 (index + l1.length)
        (runSteps settings env l1 index st) := by
  induction l1 generalizing index st with
  | nil => simp [runSteps]
  | cons sc rest ih =>
    have h0 := h 0 (by simp)
    simp only [Nat.add_zero] at h0
    simp only [List.cons_append, runQueueLoop, List.append_eq]
    rw [if_neg (by simp [h0.1]), if_neg (by simp [h0.2])]
    rw [ih (index + 1) (runScenarioStep settings env index sc st) (fun i hi => by
      have h2 := h (i + 1) (by simp only [List.length_cons]; omega)
      constructor
      · rw [show 2 * (index + 1 + i) = 2 * (index + (i + 1)) from by ring]
        exact h2.1
      · rw [show 2 * (index + 1 + i) + 1 = 2 * (index + (i + 1)) + 1 from by ring]
        exact h2.2)]
    simp only [runSteps, List.length_cons]
    congr 1
    omega

theorem runQueueLoop_cancel_after (l : List TestScenario) (index : Nat)
    (st : RunState) (k : Nat) (hk : k < l.length)
    (hbefore : ∀ i, i ≤ 2 * k → env.cancelRead (2 * index + i) = false)
    (hafter : env.cancelRead (2 * index + 2 * k + 1) = true) :
    runQueueLoop settings env l index st =
      runSteps settings env (l.take (k + 1)) index st := by
  induction k generalizing l index st with
  | zero =>
    cases l with
    | nil => simp at hk
    | cons sc rest =>
      have h0 : env.cancelRead (2 * index) = false := by
        have := hbefore 0 (by omega)
        simpa using this
      simp only [runQueueLoop]
      rw [if_neg (by simp [h0])]
      rw [if_pos (by simpa using hafter)]
      simp [runSteps, List.take]
  | succ k2 ih =>
    cases l with
    | nil => simp at hk
    | cons sc rest =>
      have h0 : env.cancelRead (2 * index) = false := by
        have := hbefore 0 (by omega)
        simpa using this
      have h1 : env.cancelRead (2 * index + 1) = false := hbefore 1 (by omega)
      simp only [runQueueLoop]
      rw [if_neg (by simp [h0]), if_neg (by simp [h1])]
      rw [ih rest (index + 1) (runScenarioStep settings env index sc st)
        (by simpa using hk)
        (fun i hi => by
          have h2 := hbefore (i + 2) (by omega)
          rw [show 2 * (index + 1) + i = 2 * index + (i + 2) from by ring]
          exact h2)
        (by rw [show 2 * (index + 1) + 2 * k2 + 1 = 2 * index + 2 * (k2 + 1) + 1 from by ring]
            exact hafter)]
      simp [runSteps]

theorem runScenarioStep_prepareOld (index : Nat) (sc : TestScenario) (st : RunState) :
    (runScenarioStep settings env index sc st).prepareOld =
      (capturedPrepareId settings env index sc).getD st.prepareOld := by
  have hurl : (buildRequestContext sc settings st.prepareOld st.prepareById st.refs
      { seed := env.seed index, nowSignTime := env.nowSign index }).url =
      scenarioDispatchUrl settings sc := rfl
  simp only [runScenarioStep, capturedPrepareId, dispatchedJson,
    sendScenarioRequest, hurl]
  by_cases hu : scenarioDispatchUrl settings sc = ""
  · simp only [hu, if_pos hu, ite_true, if_true]
    by_cases ha : sc.action = ScenarioAction.prepare <;> simp [ha]
  · simp only [hu, if_neg hu, ite_false]
    cases hf : env.fetch index with
    | error m =>
      by_cases ha : sc.action = ScenarioAction.prepare <;> simp [ha]
    | ok r =>
      by_cases hok : r.isOk = true
      · simp only [hok, not_true, if_neg, ite_false, Bool.not_true]
        by_cases ha : sc.action = ScenarioAction.prepare
        · simp only [ha, ite_true]
          cases hb : r.bodyParsed with
          | none => simp [hb]
          | some resp =>
            cases hg : aget resp "merchant_prepare_id" with
            | none => simp [hb, hg]
            | some v =>
              cases v <;> simp [hb, hg]
              rename_i s
              by_cases hs : jsTrim s = "" <;> simp [hs]
        · simp [ha]
      · simp only [Bool.not_eq_true] at hok
        simp only [hok]
        by_cases ha : sc.action = ScenarioAction.prepare <;> simp [ha]

theorem runSteps_prepareOld (l : List TestScenario) (index : Nat) (st : RunState)
    (h : ∀ i sc, l.get? i = some sc →
      capturedPrepareId settings env (index + i) sc = none) :
    (runSteps settings env l index st).prepareOld = st.prepareOld := by
  induction l generalizing index st with
  | nil => rfl
  | cons sc rest ih =>
    simp only [runSteps]
    rw [ih (index + 1) _ (fun i sc2 hsc2 => by
      have := h (i + 1) sc2 (by simpa using hsc2)
      rw [show index + 1 + i = index + (i + 1) from by omega]
      exact this)]
    rw [runScenarioStep_prepareOld]
    have h0 := h 0 sc rfl
    simp only [Nat.add_zero] at h0
    rw [h0]
    rfl

theorem classifyScenario_terminal (expected : Int) (url : String)
    (sendRes : Except String SendOk) :
    (classifyScenario expected url sendRes).status = .success ∨
      (classifyScenario expected url sendRes).status = .error := by
  cases sendRes with
  | error msg => right; rfl
  | ok r =>
    cases hj : r.json with
    | none => right; simp [classifyScenario, hj]
    | some resp =>
      simp only [classifyScenario, hj]
      rcases hn : normalizeErrorCode (aget resp "error") with _ | n
      · right; simp [hn]
      · by_cases hne : n = expected
        · subst hne
          rcases hs : aget resp "success" with _ | v
          · left; simp [hn, hs]
          · cases v with
            | jbool b => cases b <;> simp [hn, hs]
            | jnull => left; simp [hn, hs]
            | jnum m => left; simp [hn, hs]
            | jstr s => left; simp [hn, hs]
            | jobj fields => left; simp [hn, hs]
        · right; simp [hn, hne]

theorem runScenarioStep_scenarios_ne (index : Nat) (sc : TestScenario)
    (st : RunState) (j : Nat) (rec : TestScenario)
    (hj : st.scenarios.get? j = some rec) (hidx : rec.idx ≠ sc.idx) :
    (runScenarioStep settings env index sc st).scenarios.get? j = some rec := by
  simp only [runScenarioStep, List.get?_map, hj, Option.map_some', if_neg hidx]

theorem runScenarioStep_scenarios_self (index : Nat) (sc : TestScenario)
    (st : RunState) (j : Nat) (rec : TestScenario)
    (hj : st.scenarios.get? j = some rec) (hidx : rec.idx = sc.idx) :
    ∃ rec', (runScenarioStep settings env index sc st).scenarios.get? j = some rec'
      ∧ (rec'.status = .success ∨ rec'.status = .error)
      ∧ rec'.startedAt = some (env.startTick index)
      ∧ rec'.finishedAt = some (env.finishTick index)
      ∧ rec'.durationMs =
          some ((env.finishTick index : Int) - (env.startTick index : Int))
      ∧ rec'.response.isSome ∧ rec'.requestPayload.isSome := by
  simp only [runScenarioStep, List.get?_map, hj, Option.map_some', if_pos hidx]
  refine ⟨_, rfl, ?_, rfl, rfl, rfl, rfl, rfl⟩
  exact classifyScenario_terminal _ _ _

theorem runSteps_scenarios_preserved (l : List TestScenario) (index : Nat)
    (st : RunState) (j : Nat) (rec : TestScenario)
    (hj : st.scenarios.get? j = some rec)
    (hne : ∀ sc ∈ l, sc.idx ≠ rec.idx) :
    (runSteps settings env l index st).scenarios.get? j = some rec := by
  induction l generalizing index st with
  | nil => exact hj
  | cons sc rest ih =>
    simp only [runSteps]
    exact ih (index + 1) _
      (runScenarioStep_scenarios_ne index sc st j rec hj
        (fun h => hne sc (by simp) h.symm))
      (fun sc2 h2 => hne sc2 (by simp [h2]))

theorem nodup_map_get?_ne {α β : Type} (f : α → β) (l : List α)
    (h : (l.map f).Nodup) (i j : Nat) (hij : i ≠ j) (a b : α)
    (ha : l.get? i = some a) (hb : l.get? j = some b) : f a ≠ f b := by
  intro hfab
  have hi : (l.map f).get? i = some (f a) := by rw [List.get?_map, ha]; rfl
  have hj2 : (l.map f).get? j = some (f b) := by rw [List.get?_map, hb]; rfl
  have hlen : i < (l.map f).length := by
    by_contra hcon
    rw [List.get?_eq_none.mpr (by omega)] at hi
    cases hi
  have heq : (List.map f l).get? i = (List.map f l).get? j := by
    rw [hi, hj2, hfab]
  have := List.get?_inj hlen h heq
  exact hij this

theorem aget_none_of_keys {α : Type} (m : List (String × α)) (k : String)
    (h : ∀ p ∈ m, p.1 ≠ k) : aget m k = none := by
  induction m with
  | nil => rfl
  | cons p rest ih =>
    obtain ⟨a, b⟩ := p
    rw [aget_cons, if_neg (h (a, b) (by simp)), ih (fun q hq => h q (by simp [hq]))]

theorem resolvedPostPayload_fold_aget (references : RefTable) :
    ∀ (post : List (String × Option PostVal)) (acc : List (String × String))
      (k : String), (post.map Prod.fst).Nodup →
      aget (post.foldl (fun acc kv =>
          match kv.2 with
          | none => acc
          | some v => aset acc kv.1 (resolveTemplateValue references (postValToString v)))
        acc) k =
      (match aget post k with
       | some (some v) => some (resolveTemplateValue references (postValToString v))
       | some none => aget acc k
       | none => aget acc k) := by
  intro post
  induction post with
  | nil => intro acc k _; rfl
  | cons p rest ih =>
    intro acc k hnd
    obtain ⟨k1, ov1⟩ := p
    simp only [List.map_cons, List.nodup_cons] at hnd
    obtain ⟨hk1, hnd2⟩ := hnd
    simp only [List.foldl_cons]
    by_cases hk : k1 = k
    · subst hk
      have hrest : aget rest k1 = none :=
        aget_none_of_keys rest k1 (fun q hq hq1 => hk1 (by
          simp only [List.mem_map]
          exact ⟨q, hq, hq1⟩))
      rw [ih _ k1 hnd2]
      rw [aget_cons, if_pos rfl, hrest]
      cases ov1 with
      | none => rfl
      | some v => simp [aget_aset_same]
    · rw [ih _ k hnd2]
      rw [aget_cons, if_neg hk]
      cases ov1 with
      | none => rfl
      | some v =>
        cases haget : aget rest k with
        | none => simp [aget_aset_ne _ _ _ _ hk]
        | some ov2 => cases ov2 <;> simp [aget_aset_ne _ _ _ _ hk]

theorem resolvedPostPayload_aget (post : List (String × Option PostVal))
    (references : RefTable) (k : String) (h : (post.map Prod.fst).Nodup) :
    aget (resolvedPostPayload post references) k =
      (match aget post k with
       | some (some v) => some (resolveTemplateValue references (postValToString v))
       | some none => none
       | none => none) := by
  rw [resolvedPostPayload, resolvedPostPayload_fold_aget references post [] k h]
  cases haget : aget post k with
  | none => rfl
  | some ov => cases ov <;> rfl

theorem resolveTemplateValue_id (references : RefTable) (s : String)
    (hm : hasTemplateMatch s.toList = false) :
    resolveTemplateValue references s = s := by
  show String.mk (resolveCharsFuel references s.toList.length s.toList) = s
  rw [resolveCharsFuel_of_no_match references s.toList.length s.toList hm]
  rfl

theorem buildRequestContext_used_char (scenario : TestScenario)
    (settings : TesterSettings) (previousMerchantPrepareId : String)
    (prepareMap : List (String × String)) (references : RefTable)
    (env : BuildEnv) :
    (scenario.action = .complete →
      (buildRequestContext scenario settings previousMerchantPrepareId
          prepareMap references env).merchantPrepareIdUsed =
        (if jsTrim ((aget (resolvedPostPayload scenario.post references)
              "click_trans_id").getD "") = "26216" then
          randomTransactionId env.seed
         else if jsTrim ((aget (resolvedPostPayload scenario.post references)
              "merchant_prepare_id").getD "") ≠ "" then
          jsTrim ((aget (resolvedPostPayload scenario.post references)
              "merchant_prepare_id").getD "")
         else if jsTrim ((aget (resolvedPostPayload scenario.post references)
              "click_trans_id").getD "") = "11994" then
          jsOrOpt (aget prepareMap "18409") previousMerchantPrepareId
         else previousMerchantPrepareId))
  ∧ (scenario.action = .prepare →
      (buildRequestContext scenario settings previousMerchantPrepareId
          prepareMap references env).merchantPrepareIdUsed = "" ∧
      aget (buildRequestContext scenario settings previousMerchantPrepareId
          prepareMap references env).payload "merchant_prepare_id" =
        aget (resolvedPostPayload scenario.post references)
          "merchant_prepare_id") := by
  constructor
  · intro hc
    simp only [buildRequestContext, hc, aget_aset_ite]
    norm_num
    by_cases h26 : jsTrim ((aget (resolvedPostPayload scenario.post references)
        "click_trans_id").getD "") = "26216"
    · simp [h26]
    · simp only [h26, if_neg h26, jsOr]
      by_cases hex : jsTrim ((aget (resolvedPostPayload scenario.post references)
          "merchant_prepare_id").getD "") = ""
      · simp [hex]
        exact fun h => absurd h h26
      · simp [hex]
        exact fun h => absurd h h26
  · intro hp
    have hc : ¬ (scenario.action = ScenarioAction.complete) := by
      rw [hp]; intro h; cases h
    constructor
    · simp only [buildRequestContext, hc, if_neg hc]
      norm_num
    · simp only [buildRequestContext, if_neg hc]
      simp [aget_aset_ite, apply_ite (fun m => aget m "merchant_prepare_id"), hc]

theorem buildRequestContext_payload_prepare_id (scenario : TestScenario)
    (settings : TesterSettings) (previousMerchantPrepareId : String)
    (prepareMap : List (String × String)) (references : RefTable)
    (env : BuildEnv)
    (hc : scenario.action = ScenarioAction.complete)
    (hused : (buildRequestContext scenario settings previousMerchantPrepareId
        prepareMap references env).merchantPrepareIdUsed ≠ "") :
    aget (buildRequestContext scenario settings previousMerchantPrepareId
        prepareMap references env).payload "merchant_prepare_id" =
      some (buildRequestContext scenario settings previousMerchantPrepareId
        prepareMap references env).merchantPrepareIdUsed := by
  simp only [buildRequestContext, hc, aget_aset_ite, aget_ite] at hused ⊢
  simp only [String.reduceEq] at hused ⊢
  norm_num at hused ⊢
  simp [hused]

end RunLoopLemmas

/-! ## Claim C4 -/

/-- **C4**: for a `complete` scenario, `merchant_prepare_id` is chosen in
this order: correlation id `26216` gets a freshly generated random id;
otherwise a non-empty `merchant_prepare_id` in the resolved post fields
wins; otherwise correlation id `11994` uses the id captured for `18409`,
falling back to `previousMerchantPrepareId`; otherwise
`previousMerchantPrepareId`.  For a `prepare` scenario no prepare id is
set: the payload keeps the resolved post value untouched. -/
theorem buildRequestContext_prepare_id_order (scenario : TestScenario)
    (settings : TesterSettings) (previousMerchantPrepareId : String)
    (prepareMap : List (String × String)) (references : RefTable)
    (env : BuildEnv) :
    (scenario.action = .complete →
      (buildRequestContext scenario settings previousMerchantPrepareId
          prepareMap references env).merchantPrepareIdUsed =
        (if jsTrim ((aget (resolvedPostPayload scenario.post references)
              "click_trans_id").getD "") = "26216" then
          randomTransactionId env.seed
         else if jsTrim ((aget (resolvedPostPayload scenario.post references)
              "merchant_prepare_id").getD "") ≠ "" then
          jsTrim ((aget (resolvedPostPayload scenario.post references)
              "merchant_prepare_id").getD "")
         else if jsTrim ((aget (resolvedPostPayload scenario.post references)
              "click_trans_id").getD "") = "11994" then
          jsOrOpt (aget prepareMap "18409") previousMerchantPrepareId
         else previousMerchantPrepareId))
  ∧ (scenario.action = .prepare →
      (buildRequestContext scenario settings previousMerchantPrepareId
          prepareMap references env).merchantPrepareIdUsed = "" ∧
      aget (buildRequestContext scenario settings previousMerchantPrepareId
          prepareMap references env).payload "merchant_prepare_id" =
        aget (resolvedPostPayload scenario.post references)
          "merchant_prepare_id") :=
  buildRequestContext_used_char scenario settings previousMerchantPrepareId
    prepareMap references env

/-- Witness for C4: a `complete` scenario with an explicit (padded)
prepare id in its post uses the trimmed explicit value; a `prepare`
scenario sets no prepare id and keeps the post value. -/
theorem buildRequestContext_prepare_id_order_witness :
    (buildRequestContext
        { idx := 0, action := .complete,
          post := [("click_trans_id", some (.str "999")),
                   ("merchant_prepare_id", some (.str " EX "))] }
        {} "PREV" [] [] {}).merchantPrepareIdUsed = "EX"
  ∧ (buildRequestContext
        { idx := 1, action := .prepare,
          post := [("merchant_prepare_id", some (.str "P"))] }
        {} "PREV" [] [] {}).merchantPrepareIdUsed = ""
  ∧ aget (buildRequestContext
        { idx := 1, action := .prepare,
          post := [("merchant_prepare_id", some (.str "P"))] }
        {} "PREV" [] [] {}).payload "merchant_prepare_id" = some "P" := by
  refine ⟨?_, ?_, ?_⟩
  · rw [(buildRequestContext_prepare_id_order _ _ _ _ _ _).1 rfl]
    decide
  · exact ((buildRequestContext_prepare_id_order _ _ _ _ _ _).2 rfl).1
  · rw [((buildRequestContext_prepare_id_order _ _ _ _ _ _).2 rfl).2]
    decide

/-! ## Claim C5 -/

/-- **C5**: unless the trimmed correlation id is one of the two fixture
ids `27147`/`26021`, `sign_string` is the MD5 digest (lowercase hex over
the UTF-8 bytes) of the concatenation
`click_trans_id + service_id + secretKey + merchant_trans_id +
(merchantPrepareIdUsed when complete, else "") + amount + action +
sign_time` taken from the final payload values; for the two fixture ids
it is the fixed digest. -/
theorem buildRequestContext_sign_string (scenario : TestScenario)
    (settings : TesterSettings) (previousMerchantPrepareId : String)
    (prepareMap : List (String × String)) (references : RefTable)
    (env : BuildEnv) (ctx : RequestContext) (ct : String)
    (hctx : ctx = buildRequestContext scenario settings
        previousMerchantPrepareId prepareMap references env)
    (hct : ct = jsTrim ((aget ctx.payload "click_trans_id").getD "")) :
    (ct ≠ "27147" → ct ≠ "26021" →
      aget ctx.payload "sign_string" =
        some (md5 (((aget ctx.payload "click_trans_id").getD "undefined") ++
          ((aget ctx.payload "service_id").getD "undefined") ++
          settings.secretKey ++
          ((aget ctx.payload "merchant_trans_id").getD "undefined") ++
          (if scenario.action = .complete then ctx.merchantPrepareIdUsed else "") ++
          ((aget ctx.payload "amount").getD "undefined") ++
          ((aget ctx.payload "action").getD "undefined") ++
          ((aget ctx.payload "sign_time").getD "undefined"))))
  ∧ ((ct = "27147" ∨ ct = "26021") →
      aget ctx.payload "sign_string" =
        some "10a250d95b1a6afedcda8360a12a1341") := by
  subst hctx
  subst hct
  constructor
  · intro h27 h26
    simp only [buildRequestContext, aget_aset_ite, aget_ite] at h27 h26 ⊢
    simp only [String.reduceEq] at h27 h26 ⊢
    norm_num at h27 h26 ⊢
    intro h
    rcases h with h | h
    · exact absurd h h27
    · exact absurd h h26
  · intro hfix
    simp only [buildRequestContext, aget_aset_ite, aget_ite] at hfix ⊢
    simp only [String.reduceEq] at hfix ⊢
    norm_num at hfix ⊢
    intro h27x h26x
    rcases hfix with h | h
    · exact absurd h h27x
    · exact absurd h h26x

/-- Witness for C5: a `prepare` scenario with a plain correlation id gets
the computed digest over its final payload fields; a scenario whose
correlation id is `27147` gets the fixed digest. -/
theorem buildRequestContext_sign_string_witness :
    aget (buildRequestContext
        { idx := 0, action := .prepare,
          post := [("click_trans_id", some (.str "999")),
                   ("action", some (.str "0")),
                   ("sign_time", some (.str "2024-01-01 10:00:00"))] }
        { secretKey := "sec" } "" [] [] {}).payload "sign_string" =
      some (md5 ("999" ++ "" ++ "sec" ++ "" ++ "" ++ "" ++ "0" ++
        "2024-01-01 10:00:00"))
  ∧ aget (buildRequestContext
        { idx := 1, action := .prepare,
          post := [("click_trans_id", some (.str "27147"))] }
        { secretKey := "sec" } "" [] [] {}).payload "sign_string" =
      some "10a250d95b1a6afedcda8360a12a1341" := by
  constructor
  · have h := (buildRequestContext_sign_string
      { idx := 0, action := .prepare,
        post := [("click_trans_id", some (.str "999")),
                 ("action", some (.str "0")),
                 ("sign_time", some (.str "2024-01-01 10:00:00"))] }
      { secretKey := "sec" } "" [] [] {} _ _ rfl rfl).1 (by decide) (by decide)
    rw [h]
    rfl
  · exact (buildRequestContext_sign_string
      { idx := 1, action := .prepare,
        post := [("click_trans_id", some (.str "27147"))] }
      { secretKey := "sec" } "" [] [] {} _ _ rfl rfl).2 (by decide)

/-! ## Run-loop length and cancellation lemmas, claim C8 -/

theorem runScenarioStep_scenarios_length {settings : TesterSettings}
    {env : RunEnv} (index : Nat) (sc : TestScenario) (st : RunState) :
    (runScenarioStep settings env index sc st).scenarios.length =
      st.scenarios.length := by
  simp [runScenarioStep]

theorem runSteps_scenarios_length {settings : TesterSettings} {env : RunEnv}
    (l : List TestScenario) (index : Nat) (st : RunState) :
    (runSteps settings env l index st).scenarios.length =
      st.scenarios.length := by
  induction l generalizing index st with
  | nil => rfl
  | cons sc rest ih =>
    simp only [runSteps, ih, runScenarioStep_scenarios_length]

theorem mem_take_get? {α : Type} (l : List α) (n : Nat) (a : α)
    (h : a ∈ l.take n) : ∃ m, m < n ∧ l.get? m = some a := by
  obtain ⟨m, hm⟩ := List.mem_iff_get?.mp h
  have hmn : m < n := by
    by_contra hcon
    rw [List.get?_eq_none.mpr ?_] at hm
    · cases hm
    · calc (l.take n).length ≤ n := by simp
        _ ≤ m := by omega
  exact ⟨m, hmn, by rw [← List.get?_take hmn]; exact hm⟩

/-- **C8**: if the cancellation flag is observed false up to and
including the check before scenario position `k` and true at the check
after it, scenario `k` still runs to completion and its result (a
terminal status, the response, `finishedAt`, `durationMs`) is recorded;
exactly `k + 1` scenarios are dispatched, and every scenario after `k`
is left exactly as it was before the run. -/
theorem cancellation_stops_queue_after_inflight
    (capturedScenarios snapshot : List TestScenario)
    (settings : TesterSettings) (env : RunEnv)
    (audit0 : List HttpAuditEntry) (k : Nat)
    (hk : k < snapshot.length)
    (hnd : (snapshot.map TestScenario.idx).Nodup)
    (hbefore : ∀ r, r ≤ 2 * k → env.cancelRead r = false)
    (hafter : env.cancelRead (2 * k + 1) = true) :
    (∃ rec,
      (runQueue capturedScenarios snapshot snapshot settings env
          audit0).scenarios.get? k = some rec
      ∧ (rec.status = .success ∨ rec.status = .error)
      ∧ rec.startedAt = some (env.startTick k)
      ∧ rec.finishedAt = some (env.finishTick k)
      ∧ rec.durationMs =
          some ((env.finishTick k : Int) - (env.startTick k : Int))
      ∧ rec.response.isSome ∧ rec.requestPayload.isSome)
  ∧ (runQueue capturedScenarios snapshot snapshot settings env
      audit0).trace.length = k + 1
  ∧ (∀ j2, k < j2 →
      (runQueue capturedScenarios snapshot snapshot settings env
          audit0).scenarios.get? j2 = snapshot.get? j2) := by
  have hloop : runQueue capturedScenarios snapshot snapshot settings env audit0 =
      runSteps settings env (snapshot.take (k + 1)) 0
        { scenarios := snapshot,
          refs := initialReferences capturedScenarios,
          prepareOld := jsOr settings.presetMerchantPrepareId "",
          prepareById := [],
          audit := audit0,
          trace := [] } := by
    rw [runQueue]
    exact runQueueLoop_cancel_after snapshot 0 _ k hk
      (fun i hi => by simpa using hbefore i hi)
      (by simpa using hafter)
  obtain ⟨snapk, hsnapk⟩ : ∃ s, snapshot.get? k = some s := by
    rw [List.get?_eq_get hk]
    exact ⟨_, rfl⟩
  have htake : snapshot.take (k + 1) = snapshot.take k ++ [snapk] := by
    rw [List.take_succ]
    rw [show snapshot[k]? = some snapk from by
      rw [← List.get?_eq_getElem?]
      exact hsnapk]
    rfl
  have hsteps : runSteps settings env (snapshot.take (k + 1)) 0
      ({ scenarios := snapshot,
         refs := initialReferences capturedScenarios,
         prepareOld := jsOr settings.presetMerchantPrepareId "",
         prepareById := [],
         audit := audit0,
         trace := [] } : RunState) =
      runScenarioStep settings env k snapk
        (runSteps settings env (snapshot.take k) 0
          { scenarios := snapshot,
            refs := initialReferences capturedScenarios,
            prepareOld := jsOr settings.presetMerchantPrepareId "",
            prepareById := [],
            audit := audit0,
            trace := [] }) := by
    have hlen : (snapshot.take k).length = k := by
      simp; omega
    rw [htake, runSteps_append, hlen, Nat.zero_add]
    rfl
  refine ⟨?_, ?_, ?_⟩
  · rw [hloop, hsteps]
    have hpre : (runSteps settings env (snapshot.take k) 0
        { scenarios := snapshot,
          refs := initialReferences capturedScenarios,
          prepareOld := jsOr settings.presetMerchantPrepareId "",
          prepareById := [],
          audit := audit0,
          trace := [] }).scenarios.get? k = some snapk := by
      apply runSteps_scenarios_preserved _ _ _ _ _ hsnapk
      intro sc hsc
      obtain ⟨m, hm, hmget⟩ := mem_take_get? snapshot k sc hsc
      exact nodup_map_get?_ne TestScenario.idx snapshot hnd m k (by omega)
        sc snapk hmget hsnapk
    exact runScenarioStep_scenarios_self k snapk _ k snapk hpre rfl
  · rw [hloop, runSteps_trace_length]
    have : (snapshot.take (k + 1)).length = k + 1 := by
      simp; omega
    simp [this]
  · intro j2 hj2
    rw [hloop]
    by_cases hrange : j2 < snapshot.length
    · obtain ⟨recj, hrecj⟩ : ∃ s, snapshot.get? j2 = some s := by
        rw [List.get?_eq_get hrange]
        exact ⟨_, rfl⟩
      rw [hrecj]
      apply runSteps_scenarios_preserved _ _ _ _ _ hrecj
      intro sc hsc
      obtain ⟨m, hm, hmget⟩ := mem_take_get? snapshot (k + 1) sc hsc
      exact nodup_map_get?_ne TestScenario.idx snapshot hnd m j2 (by omega)
        sc recj hmget hrecj
    · have h1 : snapshot.get? j2 = none := List.get?_eq_none.mpr (by omega)
      have h2 : (runSteps settings env (snapshot.take (k + 1)) 0
          { scenarios := snapshot,
            refs := initialReferences capturedScenarios,
            prepareOld := jsOr settings.presetMerchantPrepareId "",
            prepareById := [],
            audit := audit0,
            trace := [] }).scenarios.get? j2 = none := by
        apply List.get?_eq_none.mpr
        rw [runSteps_scenarios_length]
        show snapshot.length ≤ j2
        omega
      rw [h1, h2]

/-! ## Claim C3 -/

theorem capturedPrepareId_some {settings : TesterSettings} {env : RunEnv}
    {index : Nat} {sc : TestScenario} {p : String}
    (h : capturedPrepareId settings env index sc = some p) :
    p ≠ "" ∧ sc.action = ScenarioAction.prepare := by
  unfold capturedPrepareId at h
  by_cases ha : sc.action = ScenarioAction.prepare
  · refine ⟨?_, ha⟩
    rw [if_pos ha] at h
    cases hd : dispatchedJson settings env index sc with
    | none => simp only [hd] at h; cases h
    | some resp =>
      simp only [hd] at h
      cases hg : aget resp "merchant_prepare_id" with
      | none => simp only [hg] at h; cases h
      | some v =>
        simp only [hg] at h
        cases v with
        | jstr s =>
          by_cases hs : jsTrim s = ""
          · simp [hs] at h
          · simp [hs] at h
            subst h
            exact hs
        | jnull => cases h
        | jbool b => cases h
        | jnum n => cases h
        | jobj f2 => cases h
  · rw [if_neg ha] at h
    cases h

/-- **C3** (amended): if the prepare scenario at position `i` captures
the non-empty prepare id `p`, *no prepare scenario strictly between `i`
and `j` captures another id*, and the scenario at position `j` is a
`complete` scenario with no explicit non-empty `merchant_prepare_id`
and a correlation id that is no hardcoded override (`26216`, `11994`),
then the payload dispatched at position `j` carries
`merchant_prepare_id = p`; moreover the global last-known prepare id is
updated only by `prepare` scenarios whose parsed response carries a
non-empty `merchant_prepare_id` string.  (The frozen wording, which
omits the no-intervening-prepare condition, is refuted by
`prepare_id_chaining_overwritten_by_later_prepare`.) -/
theorem prepare_id_chaining_latest
    (capturedScenarios snapshot : List TestScenario)
    (settings : TesterSettings) (env : RunEnv)
    (audit0 : List HttpAuditEntry)
    (i j : Nat) (p ct0 : String) (A B : TestScenario)
    (hij : i < j)
    (hi : snapshot.get? i = some A) (hj : snapshot.get? j = some B)
    (hcap : capturedPrepareId settings env i A = some p)
    (hmid : ∀ m sc, i < m → m < j → snapshot.get? m = some sc →
        capturedPrepareId settings env m sc = none)
    (hnc : ∀ r, r ≤ 2 * j → env.cancelRead r = false)
    (hact : B.action = ScenarioAction.complete)
    (hnd : (B.post.map Prod.fst).Nodup)
    (hmp : ∀ ov, aget B.post "merchant_prepare_id" = some ov → ov = none)
    (hclk : aget B.post "click_trans_id" = some (some (PostVal.str ct0)))
    (hm : hasTemplateMatch ct0.toList = false)
    (h26 : jsTrim ct0 ≠ "26216") (h11 : jsTrim ct0 ≠ "11994") :
    (∃ t : StepTrace,
      (runQueue capturedScenarios snapshot snapshot settings env
          audit0).trace.get? j = some t
      ∧ t.merchantPrepareIdUsed = p
      ∧ aget t.payload "merchant_prepare_id" = some p)
  ∧ (∀ (index : Nat) (sc : TestScenario) (st : RunState),
      (runScenarioStep settings env index sc st).prepareOld =
        (capturedPrepareId settings env index sc).getD st.prepareOld
      ∧ (capturedPrepareId settings env index sc ≠ none →
          sc.action = ScenarioAction.prepare)) := by
  have hjlen : j < snapshot.length := by
    by_contra hcon
    rw [List.get?_eq_none.mpr (by omega)] at hj
    cases hj
  have hilen : i < snapshot.length := by omega
  have hpne : p ≠ "" := (capturedPrepareId_some hcap).1
  refine ⟨?_, ?_⟩
  swap
  · intro index sc st
    refine ⟨runScenarioStep_prepareOld index sc st, ?_⟩
    intro hne
    cases hcapv : capturedPrepareId settings env index sc with
    | none => exact absurd hcapv hne
    | some q => exact (capturedPrepareId_some hcapv).2
  -- main conjunct
  have hsplit := @runQueueLoop_no_cancel_front settings env
    (snapshot.take j) (snapshot.drop j) 0
    { scenarios := snapshot,
      refs := initialReferences capturedScenarios,
      prepareOld := jsOr settings.presetMerchantPrepareId "",
      prepareById := [],
      audit := audit0,
      trace := [] }
    (fun i2 hi2 => by
      have hi2j : i2 < j := by
        have : (snapshot.take j).length ≤ j := by simp
        omega
      constructor
      · have := hnc (2 * (0 + i2)) (by omega)
        exact this
      · have := hnc (2 * (0 + i2) + 1) (by omega)
        exact this)
  rw [List.take_append_drop] at hsplit
  have hlentakej : (snapshot.take j).length = j := by
    rw [List.length_take]; omega
  have hBj : snapshot.drop j = B :: snapshot.drop (j + 1) := by
    rw [List.drop_eq_getElem_cons hjlen]
    congr 1
    have : snapshot[j]? = some B := by
      rw [← List.get?_eq_getElem?]
      exact hj
    have h2 := List.getElem?_eq_getElem hjlen
    rw [h2] at this
    exact Option.some.inj this
  rw [runQueue, hsplit, hlentakej, Nat.zero_add, hBj]
  -- unfold one loop iteration at position j
  set stJ := runSteps settings env (snapshot.take j) 0
    { scenarios := snapshot,
      refs := initialReferences capturedScenarios,
      prepareOld := jsOr settings.presetMerchantPrepareId "",
      prepareById := [],
      audit := audit0,
      trace := [] } with hstJ
  have hread2j : env.cancelRead (2 * j) = false := hnc (2 * j) (by omega)
  -- prepareOld of stJ is p
  have htake2 : snapshot.take j =
      snapshot.take (i + 1) ++ (snapshot.take j).drop (i + 1) := by
    conv_lhs => rw [← List.take_append_drop (i + 1) (snapshot.take j)]
    rw [List.take_take, show min (i + 1) j = i + 1 from by omega]
  have htakei1 : snapshot.take (i + 1) = snapshot.take i ++ [A] := by
    rw [List.take_succ]
    rw [show snapshot[i]? = some A from by
      rw [← List.get?_eq_getElem?]
      exact hi]
    rfl
  have hlentakei : (snapshot.take i).length = i := by
    rw [List.length_take]; omega
  have hlentakei1 : (snapshot.take (i + 1)).length = i + 1 := by
    rw [List.length_take]; omega
  have hprepJ : stJ.prepareOld = p := by
    rw [hstJ, htake2, runSteps_append, hlentakei1, Nat.zero_add, htakei1,
      runSteps_append, hlentakei, Nat.zero_add]
    have hstepA : runSteps settings env [A] i
        (runSteps settings env (snapshot.take i) 0
          { scenarios := snapshot,
            refs := initialReferences capturedScenarios,
            prepareOld := jsOr settings.presetMerchantPrepareId "",
            prepareById := [],
            audit := audit0,
            trace := [] }) =
        runScenarioStep settings env i A
          (runSteps settings env (snapshot.take i) 0
            { scenarios := snapshot,
              refs := initialReferences capturedScenarios,
              prepareOld := jsOr settings.presetMerchantPrepareId "",
              prepareById := [],
              audit := audit0,
              trace := [] }) := rfl
    rw [hstepA]
    rw [runSteps_prepareOld _ _ _ (fun m2 sc hsc => ?_)]
    · rw [runScenarioStep_prepareOld, hcap]
      rfl
    · have hm2j : i + 1 + m2 < j := by
        by_contra hcon
        rw [List.get?_eq_none.mpr ?_] at hsc
        · cases hsc
        · have hdl : ((snapshot.take j).drop (i + 1)).length = j - (i + 1) := by
            rw [List.length_drop, hlentakej]
          omega
      have hsc2 : snapshot.get? (i + 1 + m2) = some sc := by
        rw [List.get?_drop] at hsc
        rw [List.get?_take hm2j] at hsc
        exact hsc
      have := hmid (i + 1 + m2) sc (by omega) hm2j hsc2
      rw [show i + 1 + m2 = i + 1 + m2 from rfl]
      exact this
  -- the trace of the final state at index j
  have hloopstep : ∃ ext,
      (runQueueLoop settings env (B :: snapshot.drop (j + 1)) j stJ).trace =
        (runScenarioStep settings env j B stJ).trace ++ ext := by
    rw [runQueueLoop]
    rw [if_neg (by simp [hread2j])]
    by_cases h2 : env.cancelRead (2 * j + 1) = true
    · rw [if_pos h2]
      exact ⟨[], by simp⟩
    · rw [if_neg h2]
      exact runQueueLoop_trace_ext _ _ _
  obtain ⟨ext, hext⟩ := hloopstep
  obtain ⟨e, he, hepos, heidx, hepay, heused⟩ :=
    @runScenarioStep_trace_entry settings env j B stJ
  have htrlenJ : stJ.trace.length = j := by
    rw [hstJ, runSteps_trace_length]
    simp only [hlentakej]
    show ([] : List StepTrace).length + j = j
    simp
  have hgetj : (runQueueLoop settings env (B :: snapshot.drop (j + 1)) j
      stJ).trace.get? j = some e := by
    rw [hext, he, List.append_assoc, List.get?_append_right (by omega), htrlenJ]
    simp
  have hclkbase : aget (resolvedPostPayload B.post stJ.refs) "click_trans_id" =
      some ct0 := by
    rw [resolvedPostPayload_aget B.post stJ.refs "click_trans_id" hnd, hclk]
    show some (resolveTemplateValue stJ.refs (postValToString (PostVal.str ct0))) =
      some ct0
    rw [show postValToString (PostVal.str ct0) = ct0 from rfl,
      resolveTemplateValue_id stJ.refs ct0 hm]
  have hmpbase : aget (resolvedPostPayload B.post stJ.refs) "merchant_prepare_id" =
      none := by
    rw [resolvedPostPayload_aget B.post stJ.refs "merchant_prepare_id" hnd]
    cases hmm : aget B.post "merchant_prepare_id" with
    | none => rfl
    | some ov =>
      have hovn := hmp ov hmm
      subst hovn
      rfl
  have husedval : (buildRequestContext B settings stJ.prepareOld stJ.prepareById
      stJ.refs
      { seed := env.seed j, nowSignTime := env.nowSign j }).merchantPrepareIdUsed =
      p := by
    rw [(buildRequestContext_used_char B settings stJ.prepareOld stJ.prepareById
      stJ.refs { seed := env.seed j, nowSignTime := env.nowSign j }).1 hact]
    rw [hclkbase, hmpbase]
    simp only [Option.getD_some, Option.getD_none]
    rw [if_neg h26, if_neg (show ¬ jsTrim "" ≠ "" from by decide), if_neg h11]
    exact hprepJ
  refine ⟨e, hgetj, ?_, ?_⟩
  · rw [heused]
    exact husedval
  · rw [hepay]
    rw [buildRequestContext_payload_prepare_id B settings stJ.prepareOld
      stJ.prepareById stJ.refs
      { seed := env.seed j, nowSignTime := env.nowSign j } hact
      (by rw [husedval]; exact hpne)]
    rw [husedval]

/-! ## Claims C10 and C3, concrete instances -/

/-- **C10**: `buildRequestContext` never mutates its inputs: the call
record — the scenario and its `post` map, the settings, the chained
`previousMerchantPrepareId`, the `merchantPrepareIdByClickTransId` map
and the reference table — is returned unchanged alongside the result,
and the result is exactly the `buildRequestContext` value whose payload
is the freshly created object (every field rewrite of the source body
targets `payload`). -/
theorem buildRequestContext_frame (call : BuildCall) :
    (buildRequestContextCall call).1 = call
    ∧ (buildRequestContextCall call).1.scenario = call.scenario
    ∧ (buildRequestContextCall call).1.scenario.post = call.scenario.post
    ∧ (buildRequestContextCall call).1.settings = call.settings
    ∧ (buildRequestContextCall call).1.previousMerchantPrepareId =
        call.previousMerchantPrepareId
    ∧ (buildRequestContextCall call).1.merchantPrepareIdByClickTransId =
        call.merchantPrepareIdByClickTransId
    ∧ (buildRequestContextCall call).1.scenarioReferences =
        call.scenarioReferences
    ∧ (buildRequestContextCall call).2 =
        buildRequestContext call.scenario call.settings
          call.previousMerchantPrepareId
          call.merchantPrepareIdByClickTransId
          call.scenarioReferences call.env :=
  ⟨rfl, rfl, rfl, rfl, rfl, rfl, rfl, rfl⟩

/-- **C3** (counterexample to the frozen wording): scenario `c3A1`
(`prepare`) at position 0 captures the non-empty prepare id `P1`; the
later `complete` scenario `c3B` has no explicit `merchant_prepare_id`
and a correlation id that is no hardcoded override, yet its dispatched
payload carries `merchant_prepare_id = P2` — the id captured by the
*intervening* prepare scenario `c3A2` — and not `P1`. -/
theorem prepare_id_chaining_overwritten_by_later_prepare :
    capturedPrepareId c3Settings c3Env 0 c3A1 = some "P1"
    ∧ c3Scenarios.get? 0 = some c3A1
    ∧ c3Scenarios.get? 2 = some c3B
    ∧ c3B.action = ScenarioAction.complete
    ∧ aget c3B.post "merchant_prepare_id" = none
    ∧ jsTrim "300" ≠ "26216" ∧ jsTrim "300" ≠ "11994"
    ∧ ((runQueue c3Scenarios c3Scenarios c3Scenarios c3Settings c3Env
          []).trace.get? 2).map
        (fun t => aget t.payload "merchant_prepare_id") = some (some "P2")
    ∧ ((runQueue c3Scenarios c3Scenarios c3Scenarios c3Settings c3Env
          []).trace.get? 2).map
        (fun t => t.merchantPrepareIdUsed) = some "P2"
    ∧ "P2" ≠ "P1" := by
  refine ⟨by decide, rfl, rfl, rfl, rfl, by decide, by decide, ?_, ?_, by decide⟩
  · decide
  · decide

/-- Witness for `prepare_id_chaining_latest`: in the two-scenario run
`[c3A1, c3B]` the prepare id `P1` captured at position 0 reaches the
complete scenario at position 1 unchanged. -/
theorem prepare_id_chaining_latest_witness :
    (∃ t : StepTrace,
      (runQueue c3wScenarios c3wScenarios c3wScenarios c3Settings c3Env
          []).trace.get? 1 = some t
      ∧ t.merchantPrepareIdUsed = "P1"
      ∧ aget t.payload "merchant_prepare_id" = some "P1")
  ∧ (∀ (index : Nat) (sc : TestScenario) (st : RunState),
      (runScenarioStep c3Settings c3Env index sc st).prepareOld =
        (capturedPrepareId c3Settings c3Env index sc).getD st.prepareOld
      ∧ (capturedPrepareId c3Settings c3Env index sc ≠ none →
          sc.action = ScenarioAction.prepare)) :=
  prepare_id_chaining_latest c3wScenarios c3wScenarios c3Settings c3Env []
    0 1 "P1" "300" c3A1 c3B
    (by decide) rfl rfl (by decide)
    (fun m sc h1 h2 _ => absurd h1 (by omega))
    (fun r _ => rfl)
    rfl (by decide)
    (fun ov h => by
      rw [show aget c3B.post "merchant_prepare_id" =
        (none : Option (Option PostVal)) from rfl] at h
      cases h)
    rfl (by decide) (by decide) (by decide)

/-- Witness for `cancellation_stops_queue_after_inflight`: in the
two-scenario run `[c8S0, c8S1]` with the cancellation flag set right
after scenario 0 finishes, scenario 0 is recorded with a terminal
status, exactly one scenario is dispatched, and scenario 1 is left
untouched. -/
theorem cancellation_stops_queue_after_inflight_witness :
    (∃ rec,
      (runQueue c8Scenarios c8Scenarios c8Scenarios c8Settings c8Env
          []).scenarios.get? 0 = some rec
      ∧ (rec.status = ScenarioStatus.success ∨
          rec.status = ScenarioStatus.error)
      ∧ rec.startedAt = some (c8Env.startTick 0)
      ∧ rec.finishedAt = some (c8Env.finishTick 0)
      ∧ rec.durationMs =
          some ((c8Env.finishTick 0 : Int) - (c8Env.startTick 0 : Int))
      ∧ rec.response.isSome ∧ rec.requestPayload.isSome)
  ∧ (runQueue c8Scenarios c8Scenarios c8Scenarios c8Settings c8Env
      []).trace.length = 1
  ∧ (∀ j2, 0 < j2 →
      (runQueue c8Scenarios c8Scenarios c8Scenarios c8Settings c8Env
          []).scenarios.get? j2 = c8Scenarios.get? j2) :=
  cancellation_stops_queue_after_inflight c8Scenarios c8Scenarios
    c8Settings c8Env [] 0
    (by decide) (by decide)
    (fun r hr => by
      have h0 : r = 0 := Nat.le_zero.mp hr
      subst h0
      rfl)
    rfl

end ClickTester
